import Mathlib

/-!
# Camera controller API (`src/lib/Controller/api/camera.c`)

A shallow embedding of the client-side camera device of the controller library
and of the operations of `camera.c`, followed by theorems about them.

Conventions of the embedding:

* a C `double` is a value of `Double` below: NaN, the two infinities, or a finite
  value; the comparisons are the IEEE ones the C operators `<`, `>`, `<=` compute
  (every comparison with NaN is false);
* a C `int` is an `Int`; a conversion to an unsigned 16-bit integer is `% 65536`;
* a pointer that may be `NULL` is an `Option`; the heap block behind it is the value;
* the global state reached through a device tag is the explicit `Robot` record,
  which also carries the depth of the step lock and the lines written to `stderr`.
-/

namespace WbCamera

/-! ## C doubles -/

/-- C `double` values. `finite q` is the finite value `q` (both zeros are `finite 0`,
they compare equal in C). -/
inductive Double where
  | nan
  | neg_inf
  | finite (q : ℚ)
  | pos_inf
  deriving DecidableEq

namespace Double

/-- The C operator `a < b` on doubles. -/
def lt : Double → Double → Bool
  | finite a, finite b => decide (a < b)
  | neg_inf, finite _ => true
  | neg_inf, pos_inf => true
  | finite _, pos_inf => true
  | _, _ => false

/-- The C operator `a > b` on doubles. -/
def gt (a b : Double) : Bool := lt b a

/-- The C operator `a <= b` on doubles. -/
def le : Double → Double → Bool
  | finite a, finite b => decide (a ≤ b)
  | neg_inf, neg_inf => true
  | neg_inf, finite _ => true
  | neg_inf, pos_inf => true
  | finite _, pos_inf => true
  | pos_inf, pos_inf => true
  | _, _ => false

/-- The C test `isnan(a)`. -/
def isNaN : Double → Bool
  | nan => true
  | _ => false

end Double

/-- The literal `0.0`. -/
def zero : Double := Double.finite 0

/-- The constant `M_PI` of `math.h`: the double nearest to pi, `0x400921FB54442D18`. -/
def M_PI : Double := Double.finite (884279719003555 / 281474976710656)

/-- The constant expression `2.0 * M_PI`; doubling is exact in binary floating point. -/
def two_M_PI : Double := Double.finite (884279719003555 / 140737488355328)

/-! ## Data model -/

/-- A device tag (`WbDeviceTag`, an unsigned 16-bit integer in `webots/types.h`). -/
abbrev WbDeviceTag := Nat

/-- Modelled from the spec: the `WbCameraRecognitionObject` record of `webots/camera.h`
(identifier, 3-component position, 4-component orientation, 2-component size,
2-component image position, 2-component image size, colour count, the `colors` array
of doubles and the `model` string), with the field names `camera.c` uses. -/
structure WbCameraRecognitionObject where
  id : Int
  position : Double × Double × Double
  orientation : Double × Double × Double × Double
  size : Double × Double
  position_on_image : Int × Int
  size_on_image : Int × Int
  number_of_colors : Int
  colors : List Double
  model : String
  deriving DecidableEq

/-- The `Camera` struct of `camera.c`. `recognized_objects` is a pointer: `none` is
`NULL`, `some l` points to the first element of the heap array `l`. -/
structure Camera where
  min_fov : Double
  max_fov : Double
  focal_length : Double
  focal_distance : Double
  min_focal_distance : Double
  max_focal_distance : Double
  set_focal_distance : Bool
  set_fov : Bool
  has_recognition : Bool
  enable_recognition : Bool
  recognition_sampling_period : Int
  recognized_object_number : Int
  recognized_objects : Option (List WbCameraRecognitionObject)
  deriving DecidableEq

/-- Modelled from the spec: the `AbstractCamera` struct of `abstract_camera.h` (the
generic sensor base: subscription bookkeeping, image buffer, spherical / width /
height bookkeeping), with the fields `camera.c` reads and writes. `pdata` points to
the `Camera` struct. -/
structure AbstractCamera where
  enable : Bool
  sampling_period : Int
  unique_id : Nat
  width : Int
  height : Int
  camnear : Double
  spherical : Bool
  fov : Double
  image_requested : Bool
  image : Option (List Nat)
  pdata : Option Camera
  deriving DecidableEq

/-- The part of `WbDevice` that `camera.c` uses: `pdata` points to the
`AbstractCamera` struct, and is `NULL` until the device is configured. -/
structure WbDevice where
  pdata : Option AbstractCamera
  deriving DecidableEq

/-- A call to an external collaborator of `camera.c`, with its arguments. A device
pointer argument is the tag the device was looked up under, `none` for `NULL`. -/
inductive ExternalCall where
  | wb_abstract_camera_enable (d : Option WbDeviceTag) (sampling_period : Int)
  | abstract_camera_request_image (d : WbDeviceTag)
  | g_image_save (filename : String) (quality : Int)
  | robot_mutex_lock_step
  | robot_mutex_unlock_step
  deriving DecidableEq

/-- The controller state behind the public API.

* `devices t` is what `robot_get_device_with_node(t, WB_NODE_CAMERA, true)` returns:
  the camera device registered under tag `t`, or `none` (`NULL`);
* `step_mutex` is the number of times the step lock is currently held
  (`robot_mutex_lock_step` / `robot_mutex_unlock_step`);
* `stderr` is the list of format strings printed with `fprintf(stderr, ...)`;
* `calls` is the list of calls made so far to the external collaborators whose body
  is not in `camera.c`. -/
structure Robot where
  devices : WbDeviceTag → Option WbDevice
  step_mutex : Nat
  stderr : List String
  calls : List ExternalCall

/-! ## Helpers of the embedding -/

/-- The effect of `robot_mutex_lock_step()`: one more acquisition of the step lock. -/
def robot_mutex_lock_step (r : Robot) : Robot :=
  { r with step_mutex := r.step_mutex + 1 }

/-- The effect of `robot_mutex_unlock_step()`: one acquisition released. -/
def robot_mutex_unlock_step (r : Robot) : Robot :=
  { r with step_mutex := r.step_mutex - 1 }

/-- The effect of `fprintf(stderr, fmt, ...)`: the format string is recorded. -/
def fprintf_stderr (r : Robot) (fmt : String) : Robot :=
  { r with stderr := r.stderr ++ [fmt] }

/-- `camera_get_device`. -/
def camera_get_device (r : Robot) (t : WbDeviceTag) : Option WbDevice :=
  r.devices t

/-- `camera_get_abstract_camera_struct`: `d ? d->pdata : NULL`. -/
def camera_get_abstract_camera_struct (r : Robot) (t : WbDeviceTag) : Option AbstractCamera :=
  match camera_get_device r t with
  | some d => d.pdata
  | none => none

/-- `camera_get_struct`: `ac ? ac->pdata : NULL`. -/
def camera_get_struct (r : Robot) (tag : WbDeviceTag) : Option Camera :=
  match camera_get_abstract_camera_struct r tag with
  | some ac => ac.pdata
  | none => none

/-- A store through the pointer `camera_get_abstract_camera_struct(tag)`: the
`AbstractCamera` struct of the device under `tag` becomes `f` of itself. -/
def store_abstract_camera (r : Robot) (tag : WbDeviceTag) (f : AbstractCamera → AbstractCamera) :
    Robot :=
  match r.devices tag with
  | some d =>
    match d.pdata with
    | some ac => { r with devices := Function.update r.devices tag (some { d with pdata := some (f ac) }) }
    | none => r
  | none => r

/-- A store through the pointer `camera_get_struct(tag)`: the `Camera` struct of the
device under `tag` becomes `f` of itself. -/
def store_camera (r : Robot) (tag : WbDeviceTag) (f : Camera → Camera) : Robot :=
  store_abstract_camera r tag (fun ac =>
    match ac.pdata with
    | some c => { ac with pdata := some (f c) }
    | none => ac)

/-! ## Field-of-view and focal-distance setters -/

/-- `wb_camera_set_fov` (lines 392-416). The invalid-tag branch returns without
releasing the step lock, as in the source. -/
def wb_camera_set_fov (tag : WbDeviceTag) (fov : Double) (r : Robot) : Robot :=
  let r := robot_mutex_lock_step r
  match camera_get_abstract_camera_struct r tag, camera_get_struct r tag with
  | some ac, some c =>
    let (in_range, r) :=
      if ac.spherical && (fov.lt zero || fov.gt two_M_PI) then
        (false, fprintf_stderr r
          "Error: wb_camera_set_fov called with 'fov' argument outside of the [0, 2.0*pi] range.\n")
      else if !ac.spherical && (fov.lt zero || fov.gt M_PI) then
        (false, fprintf_stderr r
          "Error: wb_camera_set_fov called with 'fov' argument outside of the [0, pi] range.\n")
      else if fov.lt c.min_fov || fov.gt c.max_fov then
        (false, fprintf_stderr r "Error: wb_camera_set_fov out of zoom range [%f, %f].\n")
      else
        (true, r)
    let r :=
      if in_range then
        let r := store_abstract_camera r tag (fun ac => { ac with fov := fov })
        store_camera r tag (fun c => { c with set_fov := true })
      else r
    robot_mutex_unlock_step r
  | _, _ => fprintf_stderr r "Error: wb_camera_set_fov(): invalid device tag.\n"

/-- `wb_camera_set_focal_distance` (lines 466-487). The invalid-tag branch returns
without releasing the step lock, as in the source. -/
def wb_camera_set_focal_distance (tag : WbDeviceTag) (focal_distance : Double) (r : Robot) :
    Robot :=
  let r := robot_mutex_lock_step r
  match camera_get_abstract_camera_struct r tag, camera_get_struct r tag with
  | some ac, some c =>
    let (in_range, r) :=
      if ac.spherical then
        (false, fprintf_stderr r
          "Error: wb_camera_set_focal_distance() can't be called on a spherical camera.\n")
      else if focal_distance.lt c.min_focal_distance || focal_distance.gt c.max_focal_distance then
        (false, fprintf_stderr r
          "Error: wb_camera_set_focal_distance() out of focus range [%f, %f].\n")
      else
        (true, r)
    let r :=
      if in_range then
        let r := store_camera r tag (fun c => { c with focal_distance := focal_distance })
        store_camera r tag (fun c => { c with set_focal_distance := true })
      else r
    robot_mutex_unlock_step r
  | _, _ => fprintf_stderr r "Error: wb_camera_set_focal_distance(): invalid device tag.\n"


/-! ## Outbound request -/

/-- One value appended to a request, with the width it is written in. -/
inductive Field where
  | uchar (v : Nat)
  | uint16 (v : Nat)
  | uint32 (v : Nat)
  | int32 (v : Int)
  | double (v : Double)
  | string (s : String)
  deriving DecidableEq

/-- A `WbRequest` buffer: the values written so far, oldest first. -/
abbrev WbRequest := List Field

/-- Modelled from the spec: the command tags of `messages.h` that `camera.c` writes and
reads. Their numeric values are not in the source; they are parameters here. -/
structure Messages where
  C_CONFIGURE : Nat
  C_CAMERA_RECONFIGURE : Nat
  C_CAMERA_OBJECTS : Nat
  C_CAMERA_SET_FOV : Nat
  C_CAMERA_SET_FOCAL : Nat
  C_CAMERA_SET_RECOGNITION_SAMPLING_PERIOD : Nat

/-- Modelled from the spec: `request_write_uchar(r, c)` appends the byte `c`. -/
def request_write_uchar (r : WbRequest) (c : Nat) : WbRequest :=
  r ++ [Field.uchar c]

/-- Modelled from the spec: `request_write_double(r, v)` appends the double `v`. -/
def request_write_double (r : WbRequest) (v : Double) : WbRequest :=
  r ++ [Field.double v]

/-- Modelled from the spec: `request_write_uint16(r, v)` appends the unsigned 16-bit
integer `v`. -/
def request_write_uint16 (r : WbRequest) (v : Nat) : WbRequest :=
  r ++ [Field.uint16 v]

/-- The C conversion of an `int` argument to `unsigned short`: reduction modulo 2^16. -/
def to_uint16 (i : Int) : Nat :=
  (i % 65536).toNat

/-- `wb_camera_write_request` (lines 109-128). The generic base writer
`wb_abstract_camera_write_request`, whose body is not in `camera.c`, is the parameter
`base`; it runs first, on the device and the request. The result is `none` when the
function dereferences a `NULL` `pdata`. -/
def wb_camera_write_request (m : Messages) (base : WbDevice → WbRequest → WbDevice × WbRequest)
    (d : WbDevice) (r : WbRequest) : Option (WbDevice × WbRequest) :=
  let (d, r) := base d r
  match d.pdata with
  | none => none
  | some ac =>
    match ac.pdata with
    | none => none
    | some c =>
      let (c, r) :=
        if c.set_fov then
          let r := request_write_uchar r m.C_CAMERA_SET_FOV
          let r := request_write_double r ac.fov
          ({ c with set_fov := false }, r)
        else (c, r)
      let (c, r) :=
        if c.set_focal_distance then
          let r := request_write_uchar r m.C_CAMERA_SET_FOCAL
          let r := request_write_double r c.focal_distance
          ({ c with set_focal_distance := false }, r)
        else (c, r)
      let (c, r) :=
        if c.enable_recognition then
          let r := request_write_uchar r m.C_CAMERA_SET_RECOGNITION_SAMPLING_PERIOD
          let r := request_write_uint16 r (to_uint16 c.recognition_sampling_period)
          ({ c with enable_recognition := false }, r)
        else (c, r)
      some ({ d with pdata := some { ac with pdata := some c } }, r)

/-- The `Camera` struct reached from a device: `d->pdata->pdata`, if both exist. -/
def camera_of (d : WbDevice) : Option Camera :=
  match d.pdata with
  | some ac => ac.pdata
  | none => none

/-- The function `wb_camera_write_request` called `n` times in a row, with nothing
in between. -/
def write_requests (m : Messages) (base : WbDevice → WbRequest → WbDevice × WbRequest) :
    Nat → WbDevice → WbRequest → Option (WbDevice × WbRequest)
  | 0, d, r => some (d, r)
  | n + 1, d, r =>
    match wb_camera_write_request m base d r with
    | some (d, r) => write_requests m base n d r
    | none => none

/-- The generic base writer alone, called `n` times in a row. -/
def base_requests (base : WbDevice → WbRequest → WbDevice × WbRequest) :
    Nat → WbDevice → WbRequest → WbDevice × WbRequest
  | 0, d, r => (d, r)
  | n + 1, d, r => base_requests base n (base d r).1 (base d r).2

/-! ## Enabling the camera and the recognition -/

/-- A call of `wb_abstract_camera_enable(d, sampling_period)`: the call is recorded and
the state becomes what the generic base, the parameter `base`, makes of it. -/
def call_wb_abstract_camera_enable (base : Option WbDeviceTag → Int → Robot → Robot)
    (d : Option WbDeviceTag) (sampling_period : Int) (r : Robot) : Robot :=
  let r := base d sampling_period r
  { r with calls := r.calls ++ [ExternalCall.wb_abstract_camera_enable d sampling_period] }

/-- `wb_camera_enable` (lines 319-330). -/
def wb_camera_enable (base : Option WbDeviceTag → Int → Robot → Robot) (tag : WbDeviceTag)
    (sampling_period : Int) (r : Robot) : Robot :=
  if sampling_period < 0 then
    fprintf_stderr r "Error: wb_camera_enable() called with negative sampling period.\n"
  else
    match camera_get_device r tag with
    | none =>
      let r := fprintf_stderr r "Error: wb_camera_enable(): invalid device tag.\n"
      call_wb_abstract_camera_enable base none sampling_period r
    | some _ => call_wb_abstract_camera_enable base (some tag) sampling_period r

/-- `wb_camera_recognition_enable` (lines 497-517). -/
def wb_camera_recognition_enable (tag : WbDeviceTag) (sampling_period : Int) (r : Robot) :
    Robot :=
  if sampling_period < 0 then
    fprintf_stderr r
      "Error: wb_camera_recognition_enable() called with negative sampling period.\n"
  else
    let r := robot_mutex_lock_step r
    let r :=
      match camera_get_struct r tag with
      | some c =>
        if !c.has_recognition then
          fprintf_stderr r
            "Error: wb_camera_recognition_enable() called on a Camera without Recognition node.\n"
        else
          let r := store_camera r tag (fun c => { c with enable_recognition := true })
          store_camera r tag (fun c => { c with recognition_sampling_period := sampling_period })
      | none => fprintf_stderr r "Error: wb_camera_recognition_enable(): invalid device tag.\n"
    robot_mutex_unlock_step r

/-- `wb_camera_recognition_disable` (lines 519-533). -/
def wb_camera_recognition_disable (tag : WbDeviceTag) (r : Robot) : Robot :=
  let r := robot_mutex_lock_step r
  let (should_return, r) :=
    match camera_get_struct r tag with
    | none =>
      (true, fprintf_stderr r "Error: wb_camera_recognition_disable(): invalid device tag.\n")
    | some c =>
      if !c.has_recognition then
        (true, fprintf_stderr r
          "Error: wb_camera_recognition_disable() called on a Camera without Recognition node.\n")
      else (false, r)
  let r := robot_mutex_unlock_step r
  if !should_return then wb_camera_recognition_enable tag 0 r else r

/-- `wb_camera_recognition_get_sampling_period` (lines 535-548): the returned `int`
and the state after the call. -/
def wb_camera_recognition_get_sampling_period (tag : WbDeviceTag) (r : Robot) : Int × Robot :=
  let sampling_period : Int := 0
  let r := robot_mutex_lock_step r
  let (sampling_period, r) :=
    match camera_get_struct r tag with
    | some c =>
      if !c.has_recognition then
        (sampling_period, fprintf_stderr r
          "Error: wb_camera_recognition_get_sampling_period() called on a Camera without Recognition node.\n")
      else (c.recognition_sampling_period, r)
    | none =>
      (sampling_period, fprintf_stderr r
        "Error: wb_camera_recognition_get_sampling_period(): invalid device tag.\n")
  let r := robot_mutex_unlock_step r
  (sampling_period, r)

/-! ## Reading the recognition list -/

/-- A value of type `const WbCameraRecognitionObject *`. `block` is the array the
pointer was derived from, `none` when it was derived from `NULL` (address 0);
`index` is its distance from there, counted in elements. -/
structure ObjectPtr where
  block : Option (List WbCameraRecognitionObject)
  index : Int
  deriving DecidableEq

namespace ObjectPtr

/-- The null pointer. -/
def null : ObjectPtr := { block := none, index := 0 }

/-- Pointer arithmetic `p + i`. -/
def add (p : ObjectPtr) (i : Int) : ObjectPtr := { p with index := p.index + i }

/-- The object a pointer refers to, if it points into an array. -/
def deref (p : ObjectPtr) : Option WbCameraRecognitionObject :=
  match p.block with
  | some l => if 0 ≤ p.index then l.get? p.index.toNat else none
  | none => none

end ObjectPtr

/-- `wb_camera_recognition_get_number_of_objects` (lines 550-566). -/
def wb_camera_recognition_get_number_of_objects (tag : WbDeviceTag) (r : Robot) : Int × Robot :=
  let result : Int := 0
  let r := robot_mutex_lock_step r
  let (result, r) :=
    match camera_get_struct r tag with
    | some c =>
      if !c.has_recognition then
        (result, fprintf_stderr r
          "Error: wb_camera_recognition_get_number_of_objects() called on a Camera without Recognition node.\n")
      else if c.recognition_sampling_period = 0 then
        (result, fprintf_stderr r
          "Error: wb_camera_recognition_get_number_of_objects() called for a disabled device! Please use: wb_camera_recognition_enable().\n")
      else (c.recognized_object_number, r)
    | none =>
      (result, fprintf_stderr r
        "Error: wb_camera_recognition_get_number_of_objects(): invalid device tag.\n")
  let r := robot_mutex_unlock_step r
  (result, r)

/-- `wb_camera_recognition_get_objects` (lines 580-596). -/
def wb_camera_recognition_get_objects (tag : WbDeviceTag) (r : Robot) : ObjectPtr × Robot :=
  let result : ObjectPtr := ObjectPtr.null
  let r := robot_mutex_lock_step r
  let (result, r) :=
    match camera_get_struct r tag with
    | some c =>
      if !c.has_recognition then
        (result, fprintf_stderr r
          "Error: wb_camera_recognition_get_objects() called on a Camera without Recognition node.\n")
      else if c.recognition_sampling_period = 0 then
        (result, fprintf_stderr r
          "Error: wb_camera_recognition_get_objects() called for a disabled device! Please use: wb_camera_recognition_enable().\n")
      else ({ block := c.recognized_objects, index := 0 }, r)
    | none =>
      (result, fprintf_stderr r "Error: wb_camera_recognition_get_objects(): invalid device tag.\n")
  let r := robot_mutex_unlock_step r
  (result, r)

/-- `wb_camera_recognition_get_object` (lines 665-672): for a valid tag the result is
`wb_camera_recognition_get_objects(tag) + index`. -/
def wb_camera_recognition_get_object (tag : WbDeviceTag) (index : Int) (r : Robot) :
    ObjectPtr × Robot :=
  match camera_get_struct r tag with
  | none =>
    (ObjectPtr.null,
      fprintf_stderr r "Error: wb_camera_recognition_get_object(): invalid device tag.\n")
  | some _ =>
    let (objects, r) := wb_camera_recognition_get_objects tag r
    (objects.add index, r)

/-! ## Inbound answer -/

/-- Modelled from the spec: `request_read_uchar(r)` takes the next byte of the request.
`none` when the request does not continue with a byte. -/
def request_read_uchar : WbRequest → Option (Nat × WbRequest)
  | Field.uchar v :: r => some (v, r)
  | _ => none

/-- Modelled from the spec: `request_read_uint16(r)` takes the next unsigned 16-bit
integer of the request. -/
def request_read_uint16 : WbRequest → Option (Nat × WbRequest)
  | Field.uint16 v :: r => some (v, r)
  | _ => none

/-- Modelled from the spec: `request_read_uint32(r)` takes the next unsigned 32-bit
integer of the request. -/
def request_read_uint32 : WbRequest → Option (Nat × WbRequest)
  | Field.uint32 v :: r => some (v, r)
  | _ => none

/-- Modelled from the spec: `request_read_int32(r)` takes the next signed 32-bit
integer of the request. -/
def request_read_int32 : WbRequest → Option (Int × WbRequest)
  | Field.int32 v :: r => some (v, r)
  | _ => none

/-- Modelled from the spec: `request_read_double(r)` takes the next double of the
request. -/
def request_read_double : WbRequest → Option (Double × WbRequest)
  | Field.double v :: r => some (v, r)
  | _ => none

/-- Modelled from the spec: `request_read_string(r)` takes the next string of the
request and returns a heap copy of it. -/
def request_read_string : WbRequest → Option (String × WbRequest)
  | Field.string v :: r => some (v, r)
  | _ => none

/-- Sequencing of reads: when the read `x` returned a value and the rest of the
request, go on with `k` on them; when it did not, the result is undefined (`none`). -/
@[noinline]
def and_then {α β : Type} (x : Option (α × WbRequest)) (k : α → WbRequest → Option β) :
    Option β :=
  match x with
  | some (a, r) => k a r
  | none => none

/-- `camera_clear_recognized_objects_list` (lines 61-68): the colours and the model of
every entry and the array itself are freed. The pointer field is left dangling by the
source until the caller overwrites it; it is `none` here. -/
def camera_clear_recognized_objects_list (c : Camera) : Camera :=
  { c with recognized_objects := none }

/-- The result of `malloc(n * sizeof(WbCameraRecognitionObject))` once the loop that
follows has filled it with `entries`: for a negative `n` the size converts to a huge
`size_t`, the allocation fails and the pointer is `NULL`. -/
def malloc_objects (n : Int) (entries : List WbCameraRecognitionObject) :
    Option (List WbCameraRecognitionObject) :=
  if n < 0 then none else some entries

/-- The colour loop of the `C_CAMERA_OBJECTS` branch (lines 211-216), for `n`
iterations: three doubles are read per colour, into consecutive slots. -/
def read_colors : Nat → WbRequest → Option (List Double × WbRequest)
  | 0, r => some ([], r)
  | n + 1, r =>
    match request_read_double r with
    | none => none
    | some (c0, r) =>
      match request_read_double r with
      | none => none
      | some (c1, r) =>
        match request_read_double r with
        | none => none
        | some (c2, r) =>
          match read_colors n r with
          | none => none
          | some (rest, r) => some (c0 :: c1 :: c2 :: rest, r)

/-- One iteration of the object loop of the `C_CAMERA_OBJECTS` branch (lines 187-218).
The colour loop runs `number_of_colors` times, not at all when that is negative. -/
def read_object (r : WbRequest) : Option (WbCameraRecognitionObject × WbRequest) :=
  and_then (request_read_int32 r) fun id r =>
  and_then (request_read_double r) fun p0 r =>
  and_then (request_read_double r) fun p1 r =>
  and_then (request_read_double r) fun p2 r =>
  and_then (request_read_double r) fun o0 r =>
  and_then (request_read_double r) fun o1 r =>
  and_then (request_read_double r) fun o2 r =>
  and_then (request_read_double r) fun o3 r =>
  and_then (request_read_double r) fun s0 r =>
  and_then (request_read_double r) fun s1 r =>
  and_then (request_read_int32 r) fun pi0 r =>
  and_then (request_read_int32 r) fun pi1 r =>
  and_then (request_read_int32 r) fun si0 r =>
  and_then (request_read_int32 r) fun si1 r =>
  and_then (request_read_int32 r) fun number_of_colors r =>
  and_then (read_colors number_of_colors.toNat r) fun colors r =>
  and_then (request_read_string r) fun model r =>
  some ({ id := id, position := (p0, p1, p2), orientation := (o0, o1, o2, o3),
          size := (s0, s1), position_on_image := (pi0, pi1), size_on_image := (si0, si1),
          number_of_colors := number_of_colors, colors := colors, model := model }, r)

/-- The object loop of the `C_CAMERA_OBJECTS` branch (line 186), for `n` iterations. -/
def read_objects : Nat → WbRequest → Option (List WbCameraRecognitionObject × WbRequest)
  | 0, r => some ([], r)
  | n + 1, r =>
    match read_object r with
    | none => none
    | some (o, r) =>
      match read_objects n r with
      | none => none
      | some (rest, r) => some (o :: rest, r)

/-- The body of the `C_CAMERA_OBJECTS` branch of `wb_camera_read_answer` (lines
175-221) on the `Camera` struct: the previous list is cleared, the count is read
and stored, the array is allocated and filled from the request. `none` when the
request ends early or continues with a value of another width. -/
def camera_read_objects (c : Camera) (r : WbRequest) : Option (Camera × WbRequest) :=
  let c := camera_clear_recognized_objects_list c
  match request_read_int32 r with
  | none => none
  | some (n, r) =>
    let c := { c with recognized_object_number := n }
    match read_objects c.recognized_object_number.toNat r with
    | none => none
    | some (objects, r) =>
      some ({ c with recognized_objects := malloc_objects c.recognized_object_number objects }, r)

/-- The generic camera base that `camera.c` extends (`abstract_camera.c`, whose bodies
are not in `camera.c`), as parameters:

* `wb_abstract_camera_handle_command d r command` returns whether the base consumed
  the command, with the device and the request as it leaves them;
* `wb_abstract_camera_cleanup d` and `wb_abstract_camera_new d id w h fov camnear
  spherical` return the device as they leave it;
* `abstract_camera_toggle_remote d r` returns the device and the request as it
  leaves them. -/
structure AbstractCameraBase where
  wb_abstract_camera_handle_command : WbDevice → WbRequest → Nat → Bool × WbDevice × WbRequest
  wb_abstract_camera_cleanup : WbDevice → WbDevice
  wb_abstract_camera_new : WbDevice → Nat → Int → Int → Double → Double → Bool → WbDevice
  abstract_camera_toggle_remote : WbDevice → WbRequest → WbDevice × WbRequest

/-- `wb_camera_cleanup` (lines 70-81). -/
def wb_camera_cleanup (base : AbstractCameraBase) (d : WbDevice) : WbDevice :=
  match d.pdata with
  | none => d
  | some ac =>
    match ac.pdata with
    | none => d
    | some c =>
      let _c := camera_clear_recognized_objects_list c
      let d : WbDevice := { d with pdata := some { ac with pdata := none } }
      base.wb_abstract_camera_cleanup d

/-- `wb_camera_new` (lines 83-107). `none` when `d->pdata` is `NULL` after
`wb_abstract_camera_new` and is dereferenced. -/
def wb_camera_new (base : AbstractCameraBase) (d : WbDevice) (id : Nat) (w h : Int)
    (fov min_fov max_fov focal_length focal_distance min_focal_distance
      max_focal_distance camnear : Double) (spherical has_recognition : Bool) :
    Option WbDevice :=
  let d := wb_camera_cleanup base d
  let d := base.wb_abstract_camera_new d id w h fov camnear spherical
  let c : Camera :=
    { min_fov := min_fov, max_fov := max_fov, focal_length := focal_length,
      focal_distance := focal_distance, min_focal_distance := min_focal_distance,
      max_focal_distance := max_focal_distance, has_recognition := has_recognition,
      set_focal_distance := false, set_fov := false, enable_recognition := false,
      recognition_sampling_period := 0, recognized_object_number := 0,
      recognized_objects := none }
  match d.pdata with
  | none => none
  | some ac => some { d with pdata := some { ac with pdata := some c } }

/-- How a call of `wb_camera_read_answer` ends. -/
inductive ReadAnswer where
  /-- The function returned, leaving the device and the rest of the request. -/
  | returned (d : WbDevice) (r : WbRequest)
  /-- The function reached `ROBOT_ASSERT(0)`, with the device and the rest of the
  request as they were at that point. -/
  | assertion_failed (d : WbDevice) (r : WbRequest)
  /-- The function dereferenced a `NULL` pointer, or read a value the request does
  not hold. -/
  | undefined
  deriving DecidableEq

/-- The `C_CONFIGURE` branch of `wb_camera_read_answer` (lines 143-161). -/
def read_configure (base : AbstractCameraBase) (d : WbDevice) (r : WbRequest) :
    Option (WbDevice × WbRequest) :=
  and_then (request_read_uint32 r) fun uid r =>
  and_then (request_read_uint16 r) fun width r =>
  and_then (request_read_uint16 r) fun height r =>
  and_then (request_read_double r) fun fov r =>
  and_then (request_read_double r) fun camnear r =>
  and_then (request_read_uchar r) fun spherical r =>
  and_then (request_read_double r) fun min_fov r =>
  and_then (request_read_double r) fun max_fov r =>
  and_then (request_read_uchar r) fun has_recognition r =>
  and_then (request_read_double r) fun focal_length r =>
  and_then (request_read_double r) fun focal_distance r =>
  and_then (request_read_double r) fun min_focal_distance r =>
  and_then (request_read_double r) fun max_focal_distance r =>
  match wb_camera_new base d uid width height fov min_fov max_fov focal_length
      focal_distance min_focal_distance max_focal_distance camnear (spherical != 0)
      (has_recognition != 0) with
  | some d => some (d, r)
  | none => none

/-- The `C_CAMERA_RECONFIGURE` branch of `wb_camera_read_answer` (lines 162-174). -/
def read_reconfigure (d : WbDevice) (r : WbRequest) : Option (WbDevice × WbRequest) :=
  match d.pdata with
  | none => none
  | some ac =>
    match ac.pdata with
    | none => none
    | some c =>
      and_then (request_read_double r) fun fov r =>
      and_then (request_read_double r) fun camnear r =>
      and_then (request_read_uchar r) fun spherical r =>
      and_then (request_read_double r) fun min_fov r =>
      and_then (request_read_double r) fun max_fov r =>
      and_then (request_read_uchar r) fun has_recognition r =>
      and_then (request_read_double r) fun focal_length r =>
      and_then (request_read_double r) fun focal_distance r =>
      and_then (request_read_double r) fun min_focal_distance r =>
      and_then (request_read_double r) fun max_focal_distance r =>
      let c : Camera :=
        { c with min_fov := min_fov, max_fov := max_fov,
                 has_recognition := (has_recognition != 0), focal_length := focal_length,
                 focal_distance := focal_distance, min_focal_distance := min_focal_distance,
                 max_focal_distance := max_focal_distance }
      let ac : AbstractCamera :=
        { ac with fov := fov, camnear := camnear, spherical := (spherical != 0),
                  pdata := some c }
      some ({ d with pdata := some ac }, r)

/-- The `C_CAMERA_OBJECTS` branch of `wb_camera_read_answer` (lines 175-221) on the
device. -/
def read_objects_answer (d : WbDevice) (r : WbRequest) : Option (WbDevice × WbRequest) :=
  match d.pdata with
  | none => none
  | some ac =>
    match ac.pdata with
    | none => none
    | some c =>
      match camera_read_objects c r with
      | none => none
      | some (c, r) => some ({ d with pdata := some { ac with pdata := some c } }, r)

/-- `wb_camera_read_answer` (lines 130-226). -/
def wb_camera_read_answer (m : Messages) (base : AbstractCameraBase) (d : WbDevice)
    (r : WbRequest) : ReadAnswer :=
  match request_read_uchar r with
  | none => ReadAnswer.undefined
  | some (command, r) =>
    match base.wb_abstract_camera_handle_command d r command with
    | (true, d, r) => ReadAnswer.returned d r
    | (false, d, r) =>
      if command = m.C_CONFIGURE then
        match read_configure base d r with
        | some (d, r) => ReadAnswer.returned d r
        | none => ReadAnswer.undefined
      else if command = m.C_CAMERA_RECONFIGURE then
        match read_reconfigure d r with
        | some (d, r) => ReadAnswer.returned d r
        | none => ReadAnswer.undefined
      else if command = m.C_CAMERA_OBJECTS then
        match read_objects_answer d r with
        | some (d, r) => ReadAnswer.returned d r
        | none => ReadAnswer.undefined
      else ReadAnswer.assertion_failed d r

/-! ## Injected recognition list, remote mode, image file -/

/-- The size of a pointer, `sizeof(char *)`, on the 64-bit platforms the controller
library is built for. -/
def sizeof_pointer : Nat := 8

/-- The colour loop of `wbr_camera_recognition_set_object` (lines 303-308), for `n`
iterations: every iteration reads `colors[0]`, `colors[1]` and `colors[2]` of the
input object. `none` when the input array has no such element. -/
def copy_colors (colors : List Double) : Nat → Option (List Double)
  | 0 => some []
  | n + 1 =>
    match colors.get? 0, colors.get? 1, colors.get? 2 with
    | some c0, some c1, some c2 =>
      match copy_colors colors n with
      | some rest => some (c0 :: c1 :: c2 :: rest)
      | none => none
    | _, _, _ => none

/-- Lines 310-311: `malloc(sizeof(objects[i].model))` allocates `sizeof_pointer` bytes
and `strcpy` copies the model name and its terminating zero byte into them. `none`
when the copy writes past the end of the allocation. -/
def copy_model (model : String) : Option String :=
  if model.utf8ByteSize + 1 ≤ sizeof_pointer then some model else none

/-- The size of a `double`, `sizeof(double)`. -/
def sizeof_double : Nat := 8

/-- The C conversion of an integer value to `int`: reduction modulo 2^32 into the
signed 32-bit range. -/
def to_int32 (i : Int) : Int :=
  (i + 2147483648) % 4294967296 - 2147483648

/-- Line 301: `const int size = 3 * number_of_colors * sizeof(double *)`, the product
converted to `int`. -/
def colors_size (number_of_colors : Int) : Int :=
  to_int32 (3 * number_of_colors * sizeof_pointer)

/-- Whether the stores of the colour loop (lines 303-308) stay inside the block of
`malloc(size)` (line 302). There is no store when `number_of_colors` is not positive.
Otherwise `size` must not be negative (a negative `size` converts to a huge `size_t`,
`malloc` returns `NULL` and the first store goes through it) and the block must hold
`3 * number_of_colors` doubles. -/
def colors_fit (number_of_colors : Int) : Bool :=
  decide (number_of_colors ≤ 0) ||
    (decide (0 ≤ colors_size number_of_colors) &&
      decide (3 * number_of_colors * sizeof_double ≤ colors_size number_of_colors))

/-- One iteration of the object loop of `wbr_camera_recognition_set_object`
(lines 279-311). `none` when a colour is stored outside the colour block, when the
input colour array has no element to read, or when the model name is copied past its
block. -/
def set_object_entry (o : WbCameraRecognitionObject) : Option WbCameraRecognitionObject :=
  if colors_fit o.number_of_colors = false then none
  else
    match copy_colors o.colors o.number_of_colors.toNat with
    | none => none
    | some colors =>
      match copy_model o.model with
      | none => none
      | some model =>
        some { id := o.id,
               position := (o.position.1, o.position.2.1, o.position.2.2),
               orientation := (o.orientation.1, o.orientation.2.1, o.orientation.2.2.1,
                               o.orientation.2.2.2),
               size := (o.size.1, o.size.2),
               position_on_image := (o.position_on_image.1, o.position_on_image.2),
               size_on_image := (o.size_on_image.1, o.size_on_image.2),
               number_of_colors := o.number_of_colors,
               colors := colors,
               model := model }

/-- The object loop of `wbr_camera_recognition_set_object` (line 278), for `n`
iterations over the input array `objects`. `none` when the array has fewer than `n`
elements. -/
def set_object_loop : Nat → List WbCameraRecognitionObject →
    Option (List WbCameraRecognitionObject)
  | 0, _ => some []
  | _ + 1, [] => none
  | n + 1, o :: objects =>
    match set_object_entry o with
    | none => none
    | some e =>
      match set_object_loop n objects with
      | none => none
      | some rest => some (e :: rest)

/-- The body of `wbr_camera_recognition_set_object` for a valid tag (lines 272-312) on
the `Camera` struct. -/
def camera_set_object (c : Camera) (objects : List WbCameraRecognitionObject)
    (object_number : Int) : Option Camera :=
  let c := camera_clear_recognized_objects_list c
  let c := { c with recognized_object_number := object_number }
  match set_object_loop c.recognized_object_number.toNat objects with
  | none => none
  | some entries =>
    some { c with recognized_objects := malloc_objects c.recognized_object_number entries }

/-- `wbr_camera_recognition_set_object` (lines 269-315). `none` when the call reads
past the input or writes past an allocation. -/
def wbr_camera_recognition_set_object (tag : WbDeviceTag)
    (objects : List WbCameraRecognitionObject) (object_number : Int) (r : Robot) :
    Option Robot :=
  match camera_get_struct r tag with
  | some c =>
    match camera_set_object c objects object_number with
    | some c => some (store_camera r tag (fun _ => c))
    | none => none
  | none =>
    some (fprintf_stderr r "Error: wbr_camera_recognition_set_object(): invalid device tag.\n")

/-- `camera_toggle_remote` (lines 228-242). `remote_control_is_function_defined`, whose
body is not in `camera.c`, is a parameter. `none` when a `NULL` `pdata` is
dereferenced. -/
def camera_toggle_remote (base : AbstractCameraBase)
    (remote_control_is_function_defined : String → Bool) (d : WbDevice) (r : WbRequest) :
    Option (WbDevice × WbRequest) :=
  let (d, r) := base.abstract_camera_toggle_remote d r
  match d.pdata with
  | none => none
  | some ac =>
    match ac.pdata with
    | none => none
    | some c =>
      let (ac, c) :=
        if ac.sampling_period ≠ 0 then
          let ac := { ac with enable := true }
          let ac := { ac with image_requested := true }
          let c :=
            if remote_control_is_function_defined "wbr_camera_set_fov" then
              { c with set_fov := true }
            else c
          let c :=
            if remote_control_is_function_defined "wbr_camera_set_focal_distance" then
              { c with set_focal_distance := true }
            else c
          (ac, c)
        else (ac, c)
      let c :=
        if c.recognition_sampling_period ≠ 0 then { c with enable_recognition := true }
        else c
      some ({ d with pdata := some { ac with pdata := some c } }, r)

/-- Modelled from the spec: the image file types `g_image_get_type` of `g_image.h`
tells apart: PNG, JPEG, and every other type, which `camera.c` does not support. -/
inductive GImageType where
  | G_IMAGE_PNG
  | G_IMAGE_JPEG
  | unsupported (code : Nat)
  deriving DecidableEq

/-- The `GImage` fields `wb_camera_save_image` fills in (the data format is always
`G_IMAGE_DATA_FORMAT_BGRA`). -/
structure GImage where
  width : Int
  height : Int
  data : List Nat
  deriving DecidableEq

/-- The external collaborators of `wb_camera_save_image`, as parameters:
`g_image_get_type filename`, `abstract_camera_request_image` on the device under a
tag (its result and the state it leaves), and `g_image_save img filename quality`
(its return value). -/
structure ImageApi where
  g_image_get_type : String → GImageType
  abstract_camera_request_image : WbDeviceTag → Robot → Bool × Robot
  g_image_save : GImage → String → Int → Int

/-- A call of `abstract_camera_request_image(ac, ...)` for the device under `tag`:
the call is recorded, the result and the state are what the collaborator gives. -/
def call_abstract_camera_request_image (api : ImageApi) (tag : WbDeviceTag) (r : Robot) :
    Bool × Robot :=
  let (success, r) := api.abstract_camera_request_image tag r
  (success, { r with calls := r.calls ++ [ExternalCall.abstract_camera_request_image tag] })

/-- A call of `g_image_save(&img, filename, quality)`: the call is recorded and the
return value is what the collaborator gives. -/
def call_g_image_save (api : ImageApi) (img : GImage) (filename : String) (quality : Int)
    (r : Robot) : Int × Robot :=
  (api.g_image_save img filename quality,
    { r with calls := r.calls ++ [ExternalCall.g_image_save filename quality] })

/-- A call of `robot_mutex_lock_step()` that is also recorded in the list of calls:
`robot_mutex_lock_step` with the acquisition made visible, for the function whose
contract says where the lock is taken. -/
def call_robot_mutex_lock_step (r : Robot) : Robot :=
  let r := robot_mutex_lock_step r
  { r with calls := r.calls ++ [ExternalCall.robot_mutex_lock_step] }

/-- A call of `robot_mutex_unlock_step()` that is also recorded in the list of calls. -/
def call_robot_mutex_unlock_step (r : Robot) : Robot :=
  let r := robot_mutex_unlock_step r
  { r with calls := r.calls ++ [ExternalCall.robot_mutex_unlock_step] }

/-- The part of `wb_camera_save_image` after the validation of its arguments (lines
639-662): the step lock is taken, the image is requested and handed to the encoder.
Every acquisition and release of the lock is recorded in the list of calls. -/
def save_image_locked (api : ImageApi) (tag : WbDeviceTag) (filename : String)
    (quality : Int) (r : Robot) : Int × Robot :=
  let r := call_robot_mutex_lock_step r
  match camera_get_abstract_camera_struct r tag with
  | none =>
    let r := fprintf_stderr r "Error: wb_camera_save_image(): invalid device tag.\n"
    (-1, call_robot_mutex_unlock_step r)
  | some ac =>
    match ac.image with
    | none => (-1, call_robot_mutex_unlock_step r)
    | some _ =>
      let (success, r) := call_abstract_camera_request_image api tag r
      if !success then (-1, call_robot_mutex_unlock_step r)
      else
        let ac :=
          match camera_get_abstract_camera_struct r tag with
          | some ac => ac
          | none => ac
        let img : GImage :=
          { width := ac.width, height := ac.height, data := ac.image.getD [] }
        let (ret, r) := call_g_image_save api img filename quality r
        (ret, call_robot_mutex_unlock_step r)

/-- `wb_camera_save_image` (lines 624-663): the returned `int` and the state after the
call. A `NULL` filename is `none`. -/
def wb_camera_save_image (api : ImageApi) (tag : WbDeviceTag) (filename : Option String)
    (quality : Int) (r : Robot) : Int × Robot :=
  match filename with
  | none =>
    (-1, fprintf_stderr r
      "Error: wb_camera_save_image() called with NULL or empty 'filename' argument.\n")
  | some filename =>
    if filename = "" then
      (-1, fprintf_stderr r
        "Error: wb_camera_save_image() called with NULL or empty 'filename' argument.\n")
    else
      let type := api.g_image_get_type filename
      if type ≠ GImageType.G_IMAGE_PNG ∧ type ≠ GImageType.G_IMAGE_JPEG then
        (-1, fprintf_stderr r
          "Error: wb_camera_save_image() called with unsupported image format (should be PNG or JPEG).\n")
      else if type = GImageType.G_IMAGE_JPEG ∧ (quality < 1 ∨ quality > 100) then
        (-1, fprintf_stderr r
          "Error: wb_camera_save_image() called with invalid 'quality' argument.\n")
      else save_image_locked api tag filename quality r

/-! ## The OBJECTS record as the spec lays it out -/

/-- The fields of one object of an OBJECTS record, in the order of the spec: id,
3 doubles (position), 4 doubles (orientation), 2 doubles (size), 2 signed 32-bit
ints (image position), 2 signed 32-bit ints (image size), the colour count, that
many triples of doubles, the model name. -/
def encode_object (o : WbCameraRecognitionObject) : List Field :=
  [Field.int32 o.id,
   Field.double o.position.1, Field.double o.position.2.1, Field.double o.position.2.2,
   Field.double o.orientation.1, Field.double o.orientation.2.1,
   Field.double o.orientation.2.2.1, Field.double o.orientation.2.2.2,
   Field.double o.size.1, Field.double o.size.2,
   Field.int32 o.position_on_image.1, Field.int32 o.position_on_image.2,
   Field.int32 o.size_on_image.1, Field.int32 o.size_on_image.2,
   Field.int32 o.number_of_colors] ++
  o.colors.map Field.double ++ [Field.string o.model]

/-- The fields of the objects of a list, one object after the other. -/
def encode_object_list : List WbCameraRecognitionObject → List Field
  | [] => []
  | o :: l => encode_object o ++ encode_object_list l

/-- The payload of an OBJECTS record for a list, in the order of the spec: the object
count, then the objects. -/
def encode_objects (l : List WbCameraRecognitionObject) : List Field :=
  Field.int32 l.length :: encode_object_list l

/-- An object whose colour array holds exactly `number_of_colors` RGB triples. -/
def colors_well_formed (o : WbCameraRecognitionObject) : Prop :=
  0 ≤ o.number_of_colors ∧ o.colors.length = 3 * o.number_of_colors.toNat

instance (o : WbCameraRecognitionObject) : Decidable (colors_well_formed o) :=
  inferInstanceAs (Decidable (_ ∧ _))

/-- The number of entries of the stored recognition list (none behind `NULL`). -/
def stored_entries (c : Camera) : Nat :=
  match c.recognized_objects with
  | some l => l.length
  | none => 0

/-! ## Getters of the camera parameters -/

/-- `wb_camera_get_min_fov` (lines 368-378): the returned `double` and the state after the
call. -/
def wb_camera_get_min_fov (tag : WbDeviceTag) (r : Robot) : Double × Robot :=
  let result : Double := Double.nan
  let r := robot_mutex_lock_step r
  let (result, r) :=
    match camera_get_struct r tag with
    | some c => (c.min_fov, r)
    | none => (result, fprintf_stderr r "Error: wb_camera_get_min_fov(): invalid device tag.\n")
  let r := robot_mutex_unlock_step r
  (result, r)

/-- `wb_camera_get_max_fov` (lines 380-390): the returned `double` and the state after the
call. -/
def wb_camera_get_max_fov (tag : WbDeviceTag) (r : Robot) : Double × Robot :=
  let result : Double := Double.nan
  let r := robot_mutex_lock_step r
  let (result, r) :=
    match camera_get_struct r tag with
    | some c => (c.max_fov, r)
    | none => (result, fprintf_stderr r "Error: wb_camera_get_max_fov(): invalid device tag.\n")
  let r := robot_mutex_unlock_step r
  (result, r)

/-- `wb_camera_get_focal_length` (lines 418-428): the returned `double` and the state after the
call. -/
def wb_camera_get_focal_length (tag : WbDeviceTag) (r : Robot) : Double × Robot :=
  let result : Double := Double.nan
  let r := robot_mutex_lock_step r
  let (result, r) :=
    match camera_get_struct r tag with
    | some c => (c.focal_length, r)
    | none => (result, fprintf_stderr r "Error: wb_camera_get_focal_length(): invalid device tag.\n")
  let r := robot_mutex_unlock_step r
  (result, r)

/-- `wb_camera_get_focal_distance` (lines 430-440): the returned `double` and the state after the
call. -/
def wb_camera_get_focal_distance (tag : WbDeviceTag) (r : Robot) : Double × Robot :=
  let result : Double := Double.nan
  let r := robot_mutex_lock_step r
  let (result, r) :=
    match camera_get_struct r tag with
    | some c => (c.focal_distance, r)
    | none => (result, fprintf_stderr r "Error: wb_camera_get_focal_distance(): invalid device tag.\n")
  let r := robot_mutex_unlock_step r
  (result, r)

/-- `wb_camera_get_min_focal_distance` (lines 442-452): the returned `double` and the state after the
call. -/
def wb_camera_get_min_focal_distance (tag : WbDeviceTag) (r : Robot) : Double × Robot :=
  let result : Double := Double.nan
  let r := robot_mutex_lock_step r
  let (result, r) :=
    match camera_get_struct r tag with
    | some c => (c.min_focal_distance, r)
    | none => (result, fprintf_stderr r "Error: wb_camera_get_min_focal_distance(): invalid device tag.\n")
  let r := robot_mutex_unlock_step r
  (result, r)

/-- `wb_camera_get_max_focal_distance` (lines 454-464): the returned `double` and the state after the
call. -/
def wb_camera_get_max_focal_distance (tag : WbDeviceTag) (r : Robot) : Double × Robot :=
  let result : Double := Double.nan
  let r := robot_mutex_lock_step r
  let (result, r) :=
    match camera_get_struct r tag with
    | some c => (c.max_focal_distance, r)
    | none => (result, fprintf_stderr r "Error: wb_camera_get_max_focal_distance(): invalid device tag.\n")
  let r := robot_mutex_unlock_step r
  (result, r)

/-- `wb_camera_has_recognition` (lines 568-578): the returned `bool` and the state
after the call. -/
def wb_camera_has_recognition (tag : WbDeviceTag) (r : Robot) : Bool × Robot :=
  let has_recognition : Bool := false
  let r := robot_mutex_lock_step r
  let (has_recognition, r) :=
    match camera_get_struct r tag with
    | some c => (c.has_recognition, r)
    | none =>
      (has_recognition,
        fprintf_stderr r "Error: wb_camera_has_recognition(): invalid device tag.\n")
  let r := robot_mutex_unlock_step r
  (has_recognition, r)

/-! ## Predicates and sample states used in the statements -/

/-- The absolute upper bound `wb_camera_set_fov` applies for the projection type:
`2.0 * M_PI` when spherical, `M_PI` when planar. -/
def fov_bound (spherical : Bool) : Double :=
  if spherical then two_M_PI else M_PI

/-- The test `wb_camera_set_fov` applies to its argument, read off its three `if`
branches: none of `fov < 0.0`, `fov > bound`, `fov < min_fov`, `fov > max_fov` holds. -/
def fov_accepted (ac : AbstractCamera) (c : Camera) (fov : Double) : Bool :=
  !(fov.lt zero || fov.gt (fov_bound ac.spherical)) && !(fov.lt c.min_fov || fov.gt c.max_fov)

/-- The test `wb_camera_set_focal_distance` applies, read off its `if` branches: the
camera is not spherical and neither `focal_distance < min_focal_distance` nor
`focal_distance > max_focal_distance` holds. -/
def focal_accepted (ac : AbstractCamera) (c : Camera) (focal_distance : Double) : Bool :=
  !ac.spherical &&
    !(focal_distance.lt c.min_focal_distance || focal_distance.gt c.max_focal_distance)

/-- The device under `tag` is a valid camera: the tag resolves to a device `d` whose
`pdata` is the `AbstractCamera` `ac`, whose `pdata` is the `Camera` `c`. -/
def valid_camera (r : Robot) (tag : WbDeviceTag) (d : WbDevice) (ac : AbstractCamera)
    (c : Camera) : Prop :=
  r.devices tag = some d ∧ d.pdata = some ac ∧ ac.pdata = some c

/-- The device of `tag` with its `AbstractCamera` replaced by `ac` and the `Camera`
behind it by `c`. -/
def with_camera (r : Robot) (tag : WbDeviceTag) (ac : AbstractCamera) (c : Camera) : Robot :=
  { r with devices := Function.update r.devices tag (some { pdata := some { ac with pdata := some c } }) }

/-- The field-of-view invariant as the spec words it, on the camera under `tag`:
`min_fov <= fov <= max_fov` and `fov` in `(0, pi]` when planar, `(0, 2 pi]` when
spherical. False when the tag resolves to no camera. -/
def fov_invariant (r : Robot) (tag : WbDeviceTag) : Bool :=
  match camera_get_abstract_camera_struct r tag, camera_get_struct r tag with
  | some ac, some c =>
    c.min_fov.le ac.fov && ac.fov.le c.max_fov && zero.lt ac.fov &&
      ac.fov.le (fov_bound ac.spherical)
  | _, _ => false

/-- The field-of-view invariant with the lower bound included: `min_fov <= fov <= max_fov`
and `fov` in `[0, pi]` when planar, `[0, 2 pi]` when spherical. -/
def fov_invariant_closed (r : Robot) (tag : WbDeviceTag) : Bool :=
  match camera_get_abstract_camera_struct r tag, camera_get_struct r tag with
  | some ac, some c =>
    c.min_fov.le ac.fov && ac.fov.le c.max_fov && zero.le ac.fov &&
      ac.fov.le (fov_bound ac.spherical)
  | _, _ => false

/-- The zoom range of the camera under `tag` starts above zero: `0 < min_fov`. -/
def min_fov_positive (r : Robot) (tag : WbDeviceTag) : Bool :=
  match camera_get_struct r tag with
  | some c => zero.lt c.min_fov
  | none => false

/-- The focal-distance invariant of the spec on the camera under `tag`:
`min_focal_distance <= focal_distance <= max_focal_distance`. -/
def focal_invariant (r : Robot) (tag : WbDeviceTag) : Bool :=
  match camera_get_struct r tag with
  | some c => c.min_focal_distance.le c.focal_distance && c.focal_distance.le c.max_focal_distance
  | none => false

/-- A sample `Camera`: zoom range `[0.2, 1.0]`, focus range `[0, 1]`, recognition
supported, nothing pending, recognition off, no recognition list yet. -/
def sample_camera : Camera :=
  { min_fov := Double.finite (1 / 5), max_fov := Double.finite 1,
    focal_length := Double.finite 0, focal_distance := Double.finite (1 / 2),
    min_focal_distance := Double.finite 0, max_focal_distance := Double.finite 1,
    set_focal_distance := false, set_fov := false, has_recognition := true,
    enable_recognition := false, recognition_sampling_period := 0,
    recognized_object_number := 0, recognized_objects := none }

/-- A sample planar `AbstractCamera` of 64 x 64 pixels with field of view 0.8, not
enabled, in front of the `Camera` struct `c`. -/
def sample_abstract_camera (c : Camera) : AbstractCamera :=
  { enable := false, sampling_period := 0, unique_id := 0, width := 64, height := 64,
    camnear := Double.finite (1 / 100), spherical := false, fov := Double.finite (4 / 5),
    image_requested := false, image := none, pdata := some c }

/-- A sample state: one camera device, `ac`, under tag 1; the lock free, nothing
printed, no external call made. -/
def sample_robot (ac : AbstractCamera) : Robot :=
  { devices := fun t => if t = 1 then some { pdata := some ac } else none,
    step_mutex := 0, stderr := [], calls := [] }

/-- A sample numbering of the command tags. -/
def sample_messages : Messages :=
  { C_CONFIGURE := 1, C_CAMERA_RECONFIGURE := 2, C_CAMERA_OBJECTS := 3, C_CAMERA_SET_FOV := 4,
    C_CAMERA_SET_FOCAL := 5, C_CAMERA_SET_RECOGNITION_SAMPLING_PERIOD := 6 }

/-- A generic base writer that appends nothing and leaves the device alone (nothing
pending in the generic sensor base). -/
def idle_base (d : WbDevice) (r : WbRequest) : WbDevice × WbRequest :=
  (d, r)

/-- The payload of a CONFIGURE record in the order of the spec: id (uint32), width
(uint16), height (uint16), fov, near, spherical flag (byte), min fov, max fov,
recognition-capability flag (byte), focal length, focal distance, min focal distance,
max focal distance. -/
def configure_payload (uid width height : Nat) (fov camnear : Double) (spherical : Nat)
    (min_fov max_fov : Double) (has_recognition : Nat)
    (focal_length focal_distance min_focal_distance max_focal_distance : Double) :
    List Field :=
  [Field.uint32 uid, Field.uint16 width, Field.uint16 height, Field.double fov,
   Field.double camnear, Field.uchar spherical, Field.double min_fov, Field.double max_fov,
   Field.uchar has_recognition, Field.double focal_length, Field.double focal_distance,
   Field.double min_focal_distance, Field.double max_focal_distance]

/-- The payload of a RECONFIGURE record in the order of the spec: the fields of
CONFIGURE without id, width and height. -/
def reconfigure_payload (fov camnear : Double) (spherical : Nat)
    (min_fov max_fov : Double) (has_recognition : Nat)
    (focal_length focal_distance min_focal_distance max_focal_distance : Double) :
    List Field :=
  [Field.double fov, Field.double camnear, Field.uchar spherical, Field.double min_fov,
   Field.double max_fov, Field.uchar has_recognition, Field.double focal_length,
   Field.double focal_distance, Field.double min_focal_distance,
   Field.double max_focal_distance]

/-- A sample image collaborator: `image.png` is a PNG file name, `image.jpg` a JPEG
file name and every other name is of an unsupported type; an image request succeeds
and changes nothing; the encoder returns 0. -/
def sample_image_api : ImageApi :=
  { g_image_get_type := fun filename =>
      if filename = "image.png" then GImageType.G_IMAGE_PNG
      else if filename = "image.jpg" then GImageType.G_IMAGE_JPEG
      else GImageType.unsupported 0,
    abstract_camera_request_image := fun _ r => (true, r),
    g_image_save := fun _ _ _ => 0 }

/-- An input of a replacement of the recognition list: the payload of an OBJECTS
record, or the arguments of `wbr_camera_recognition_set_object`. -/
inductive ReplaceInput where
  | record (payload : WbRequest)
  | injected (objects : List WbCameraRecognitionObject) (object_number : Int)

/-- The object count an input announces: the first field of the record, or the
`object_number` argument. -/
def ReplaceInput.count : ReplaceInput → Option Int
  | ReplaceInput.record payload =>
    match request_read_int32 payload with
    | some (n, _) => some n
    | none => none
  | ReplaceInput.injected _ object_number => some object_number

/-- One replacement of the recognition list of a `Camera` struct, by either path. -/
def replace (c : Camera) : ReplaceInput → Option Camera
  | ReplaceInput.record payload =>
    match camera_read_objects c payload with
    | some (c, _) => some c
    | none => none
  | ReplaceInput.injected objects object_number => camera_set_object c objects object_number

/-- An input object `wbr_camera_recognition_set_object` can copy within bounds: its
colour count is at most 89478485, the largest for which the `int` size of the colour
block does not wrap; its colour array has the three elements the colour loop reads when
there is a colour; and its model name and terminating zero byte fit the allocation. -/
def injectable (o : WbCameraRecognitionObject) : Prop :=
  o.number_of_colors ≤ 89478485 ∧ (0 < o.number_of_colors → 3 ≤ o.colors.length) ∧
    o.model.utf8ByteSize + 1 ≤ sizeof_pointer

/-- The step path that hands an answer for the device under `tag` to
`wb_camera_read_answer` (through `d->read_answer`), keeping the device as the call
leaves it. `none` when the tag resolves to no device or the call does not return. -/
def robot_read_answer (m : Messages) (base : AbstractCameraBase) (tag : WbDeviceTag)
    (answer : WbRequest) (r : Robot) : Option Robot :=
  match r.devices tag with
  | none => none
  | some d =>
    match wb_camera_read_answer m base d answer with
    | ReadAnswer.returned d _ =>
      some { r with devices := Function.update r.devices tag (some d) }
    | _ => none

/-- Modelled from the spec: a generic camera base that consumes no command, whose
cleanup releases the generic struct, whose constructor creates the generic struct from
id, width, height, field of view, near plane and spherical flag with the subscription
off and no image, and whose remote-mode toggle does nothing. -/
def sample_base : AbstractCameraBase :=
  { wb_abstract_camera_handle_command := fun d r _ => (false, d, r),
    wb_abstract_camera_cleanup := fun _ => { pdata := none },
    wb_abstract_camera_new := fun _ id w h fov camnear spherical =>
      { pdata := some
          { enable := false, sampling_period := 0, unique_id := id, width := w, height := h,
            camnear := camnear, spherical := spherical, fov := fov, image_requested := false,
            image := none, pdata := none } },
    abstract_camera_toggle_remote := fun d r => (d, r) }

/-- A sample recognition list of two objects: the first with three colours, the
second with none. -/
def sample_objects : List WbCameraRecognitionObject :=
  [{ id := 7,
     position := (Double.finite 1, Double.finite 2, Double.finite 3),
     orientation := (Double.finite 0, Double.finite 1, Double.finite 0, Double.finite 0),
     size := (Double.finite (1 / 2), Double.finite (1 / 4)),
     position_on_image := (10, 20), size_on_image := (5, 6), number_of_colors := 3,
     colors := [Double.finite 1, Double.finite 0, Double.finite 0,
                Double.finite 0, Double.finite 1, Double.finite 0,
                Double.finite 0, Double.finite 0, Double.finite 1],
     model := "box" },
   { id := 9,
     position := (Double.finite 4, Double.finite 5, Double.finite 6),
     orientation := (Double.finite 1, Double.finite 0, Double.finite 0, Double.finite 0),
     size := (Double.finite 1, Double.finite 1),
     position_on_image := (30, 40), size_on_image := (7, 8), number_of_colors := 0,
     colors := [], model := "ball" }]

/-- A sample object with two different colours, red then green. -/
def two_colour_object : WbCameraRecognitionObject :=
  { id := 1,
    position := (Double.finite 0, Double.finite 0, Double.finite 1),
    orientation := (Double.finite 0, Double.finite 1, Double.finite 0, Double.finite 0),
    size := (Double.finite 1, Double.finite 1),
    position_on_image := (3, 4), size_on_image := (2, 2), number_of_colors := 2,
    colors := [Double.finite 1, Double.finite 0, Double.finite 0,
               Double.finite 0, Double.finite 1, Double.finite 0],
    model := "box" }

/-- The first sample object as `wbr_camera_recognition_set_object` stores it: every
field as in `sample_objects`, except that its three colours are all the first one. -/
def red_box : WbCameraRecognitionObject :=
  { id := 7,
    position := (Double.finite 1, Double.finite 2, Double.finite 3),
    orientation := (Double.finite 0, Double.finite 1, Double.finite 0, Double.finite 0),
    size := (Double.finite (1 / 2), Double.finite (1 / 4)),
    position_on_image := (10, 20), size_on_image := (5, 6), number_of_colors := 3,
    colors := [Double.finite 1, Double.finite 0, Double.finite 0,
               Double.finite 1, Double.finite 0, Double.finite 0,
               Double.finite 1, Double.finite 0, Double.finite 0],
    model := "box" }

/-- A sequence of calls of `wb_camera_set_fov` with the values `vs`, in that order and
with nothing in between. -/
def set_fov_calls (tag : WbDeviceTag) : List Double → Robot → Robot
  | [], r => r
  | v :: vs, r => set_fov_calls tag vs (wb_camera_set_fov tag v r)

/-- A sequence of calls of `wb_camera_set_focal_distance` with the values `vs`, in that
order and with nothing in between. -/
def set_focal_distance_calls (tag : WbDeviceTag) : List Double → Robot → Robot
  | [], r => r
  | v :: vs, r => set_focal_distance_calls tag vs (wb_camera_set_focal_distance tag v r)

/-- The value of the last call of a sequence that passes the test `accepted`, if any
call does. -/
def last_accepted (accepted : Double → Bool) (vs : List Double) : Option Double :=
  (vs.filter accepted).getLast?

/-- A generic base writer that leaves the field of view and the `Camera` struct of the
device as they are (it only deals with the generic subscription bookkeeping). -/
def base_keeps_camera_state (base : WbDevice → WbRequest → WbDevice × WbRequest) : Prop :=
  ∀ d r ac, d.pdata = some ac →
    ∃ ac1, (base d r).1.pdata = some ac1 ∧ ac1.fov = ac.fov ∧ ac1.pdata = ac.pdata

/-! ## Theorems -/

namespace Double

theorem gt_eq_false_of_le (v b : Double) (h : v.le b = true) : v.gt b = false := by
  cases v <;> cases b <;> simp_all [Double.le, Double.gt, Double.lt]

theorem lt_eq_false_of_le (a v : Double) (h : a.le v = true) : v.lt a = false := by
  cases v <;> cases a <;> simp_all [Double.le, Double.lt]

theorem lt_eq_false_of_lt (a v : Double) (h : a.lt v = true) : v.lt a = false := by
  cases v <;> cases a <;> simp_all [Double.lt]
  exact le_of_lt h

theorem le_of_lt_eq_false (a v : Double) (ha : a.isNaN = false) (hv : v.isNaN = false)
    (h : v.lt a = false) : a.le v = true := by
  cases v <;> cases a <;> simp_all [Double.le, Double.lt, Double.isNaN]

theorem isNaN_left_of_le (a v : Double) (h : a.le v = true) : a.isNaN = false := by
  cases v <;> cases a <;> simp_all [Double.le, Double.isNaN]

theorem isNaN_right_of_le (a v : Double) (h : a.le v = true) : v.isNaN = false := by
  cases v <;> cases a <;> simp_all [Double.le, Double.isNaN]

theorem lt_of_lt_of_le (a b v : Double) (h1 : a.lt b = true) (h2 : b.le v = true) :
    a.lt v = true := by
  cases v <;> cases a <;> cases b <;> simp_all [Double.le, Double.lt]
  exact h1.trans_le h2

end Double

theorem valid_camera_sample_robot (ac : AbstractCamera) (c : Camera) (h : ac.pdata = some c) :
    valid_camera (sample_robot ac) 1 { pdata := some ac } ac c :=
  ⟨rfl, rfl, h⟩

theorem valid_camera_with_camera (r : Robot) (tag : WbDeviceTag) (ac : AbstractCamera)
    (c : Camera) :
    valid_camera (with_camera r tag ac c) tag { pdata := some { ac with pdata := some c } }
      { ac with pdata := some c } c :=
  ⟨by simp [with_camera], rfl, rfl⟩

theorem camera_get_abstract_camera_struct_of_valid {r : Robot} {tag : WbDeviceTag}
    {d : WbDevice} {ac : AbstractCamera} {c : Camera} (hv : valid_camera r tag d ac c) :
    camera_get_abstract_camera_struct r tag = some ac := by
  obtain ⟨hd, hac, _⟩ := hv
  simp [camera_get_abstract_camera_struct, camera_get_device, hd, hac]

theorem camera_get_struct_of_valid {r : Robot} {tag : WbDeviceTag}
    {d : WbDevice} {ac : AbstractCamera} {c : Camera} (hv : valid_camera r tag d ac c) :
    camera_get_struct r tag = some c := by
  simp [camera_get_struct, camera_get_abstract_camera_struct_of_valid hv, hv.2.2]

/-- What `wb_camera_set_fov` does on a valid camera when its test accepts the value. -/
theorem wb_camera_set_fov_of_accepted {r : Robot} {tag : WbDeviceTag}
    {d : WbDevice} {ac : AbstractCamera} {c : Camera} (hv : valid_camera r tag d ac c)
    (v : Double) (h : fov_accepted ac c v = true) :
    wb_camera_set_fov tag v r =
      with_camera r tag { ac with fov := v } { c with set_fov := true } := by
  obtain ⟨hd, hac, hc⟩ := hv
  simp only [wb_camera_set_fov, camera_get_abstract_camera_struct, camera_get_struct,
    camera_get_device, robot_mutex_lock_step, hd, hac, hc]
  cases hs : ac.spherical <;> simp [fov_accepted, fov_bound, hs] at h <;>
    simp [h, store_camera, store_abstract_camera, robot_mutex_unlock_step,
      with_camera, hd, hac, hc] <;> rw [hs]

/-- What `wb_camera_set_fov` does on a valid camera when its test rejects the value. -/
theorem wb_camera_set_fov_of_rejected {r : Robot} {tag : WbDeviceTag}
    {d : WbDevice} {ac : AbstractCamera} {c : Camera} (hv : valid_camera r tag d ac c)
    (v : Double) (h : fov_accepted ac c v = false) :
    ∃ msg, wb_camera_set_fov tag v r = { r with stderr := r.stderr ++ [msg] } := by
  obtain ⟨hd, hac, hc⟩ := hv
  simp only [wb_camera_set_fov, camera_get_abstract_camera_struct, camera_get_struct,
    camera_get_device, robot_mutex_lock_step, hd, hac, hc]
  cases hs : ac.spherical <;> simp only [fov_accepted, hs, fov_bound] at h <;>
    by_cases h1 : v.lt zero = true <;> by_cases h2 : v.gt M_PI = true <;>
    by_cases h2' : v.gt two_M_PI = true <;>
    by_cases h3 : v.lt c.min_fov = true <;> by_cases h4 : v.gt c.max_fov = true <;>
    simp_all [fprintf_stderr, robot_mutex_unlock_step]

theorem fov_invariant_with_camera (r : Robot) (tag : WbDeviceTag) (ac : AbstractCamera)
    (c : Camera) :
    fov_invariant (with_camera r tag ac c) tag =
      (c.min_fov.le ac.fov && ac.fov.le c.max_fov && zero.lt ac.fov &&
        ac.fov.le (fov_bound ac.spherical)) := by
  simp [fov_invariant, camera_get_abstract_camera_struct_of_valid (valid_camera_with_camera r tag ac c),
    camera_get_struct_of_valid (valid_camera_with_camera r tag ac c)]

theorem fov_invariant_closed_with_camera (r : Robot) (tag : WbDeviceTag) (ac : AbstractCamera)
    (c : Camera) :
    fov_invariant_closed (with_camera r tag ac c) tag =
      (c.min_fov.le ac.fov && ac.fov.le c.max_fov && zero.le ac.fov &&
        ac.fov.le (fov_bound ac.spherical)) := by
  simp [fov_invariant_closed,
    camera_get_abstract_camera_struct_of_valid (valid_camera_with_camera r tag ac c),
    camera_get_struct_of_valid (valid_camera_with_camera r tag ac c)]

/-- C1: on a valid camera, `wb_camera_set_fov(v)` only prints a diagnostic (field of
view, fov-dirty marker, every other field and the lock depth unchanged) when `v` is
negative, exceeds the bound of the projection type, is below `min_fov` or above
`max_fov`; and when `0 < v <= bound` and `min_fov <= v <= max_fov` it stores `v`,
sets the fov-dirty marker and changes nothing else. -/
theorem wb_camera_set_fov_contract (r : Robot) (tag : WbDeviceTag) (d : WbDevice)
    (ac : AbstractCamera) (c : Camera) (v : Double) (hv : valid_camera r tag d ac c) :
    ((v.lt zero = true ∨ v.gt (fov_bound ac.spherical) = true ∨ v.lt c.min_fov = true ∨
        v.gt c.max_fov = true) →
      ∃ msg, wb_camera_set_fov tag v r = { r with stderr := r.stderr ++ [msg] }) ∧
    ((zero.lt v = true ∧ v.le (fov_bound ac.spherical) = true ∧ c.min_fov.le v = true ∧
        v.le c.max_fov = true) →
      wb_camera_set_fov tag v r =
        with_camera r tag { ac with fov := v } { c with set_fov := true }) := by
  constructor
  · intro h
    apply wb_camera_set_fov_of_rejected hv
    simp only [fov_accepted]
    rcases h with h | h | h | h <;> simp [h]
  · rintro ⟨h0, hb, hmin, hmax⟩
    apply wb_camera_set_fov_of_accepted hv
    simp [fov_accepted, Double.lt_eq_false_of_lt _ _ h0, Double.gt_eq_false_of_le _ _ hb,
      Double.lt_eq_false_of_le _ _ hmin, Double.gt_eq_false_of_le _ _ hmax]

/-- The scenario of C1: zoom range `[0.2, 1.0]`, planar; `set_fov(0.5)` stores 0.5 and
sets the marker; `set_fov(1.5)` on the resulting state only prints a diagnostic, so
the field of view is still 0.5 and the marker still set. -/
theorem wb_camera_set_fov_contract_witness :
    valid_camera (sample_robot (sample_abstract_camera sample_camera)) 1
      { pdata := some (sample_abstract_camera sample_camera) }
      (sample_abstract_camera sample_camera) sample_camera ∧
    wb_camera_set_fov 1 (Double.finite (1 / 2)) (sample_robot (sample_abstract_camera sample_camera)) =
      with_camera (sample_robot (sample_abstract_camera sample_camera)) 1
        { sample_abstract_camera sample_camera with fov := Double.finite (1 / 2) }
        { sample_camera with set_fov := true } ∧
    ∃ msg, wb_camera_set_fov 1 (Double.finite (3 / 2))
        (with_camera (sample_robot (sample_abstract_camera sample_camera)) 1
          { sample_abstract_camera sample_camera with fov := Double.finite (1 / 2) }
          { sample_camera with set_fov := true }) =
      { with_camera (sample_robot (sample_abstract_camera sample_camera)) 1
          { sample_abstract_camera sample_camera with fov := Double.finite (1 / 2) }
          { sample_camera with set_fov := true } with
        stderr := [msg] } :=
  ⟨⟨rfl, rfl, rfl⟩,
   (wb_camera_set_fov_contract (sample_robot (sample_abstract_camera sample_camera)) 1
      { pdata := some (sample_abstract_camera sample_camera) }
      (sample_abstract_camera sample_camera) sample_camera (Double.finite (1 / 2))
      ⟨rfl, rfl, rfl⟩).2
     (by simp [Double.lt, Double.le, zero, fov_bound, sample_abstract_camera, sample_camera, M_PI]
         norm_num),
   (wb_camera_set_fov_contract
      (with_camera (sample_robot (sample_abstract_camera sample_camera)) 1
        { sample_abstract_camera sample_camera with fov := Double.finite (1 / 2) }
        { sample_camera with set_fov := true }) 1
      { pdata := some { sample_abstract_camera sample_camera with
          fov := Double.finite (1 / 2), pdata := some { sample_camera with set_fov := true } } }
      { sample_abstract_camera sample_camera with
          fov := Double.finite (1 / 2), pdata := some { sample_camera with set_fov := true } }
      { sample_camera with set_fov := true } (Double.finite (3 / 2))
      ⟨by simp [with_camera], rfl, rfl⟩).1
     (Or.inr (Or.inr (Or.inr (by
        simp [Double.gt, Double.lt, sample_camera]
        norm_num))))⟩

/-- C2 as stated fails: from a state that satisfies the invariant with the open lower
bound (zoom range `[0, 1]`, field of view 0.8), `wb_camera_set_fov(0.0)` is accepted and
leaves field of view 0, outside `(0, pi]`; and `wb_camera_set_fov(NaN)` is accepted as
well, after which no bound holds. -/
theorem wb_camera_set_fov_breaks_open_invariant :
    fov_invariant (sample_robot (sample_abstract_camera { sample_camera with min_fov := zero })) 1
      = true ∧
    fov_invariant (wb_camera_set_fov 1 zero
      (sample_robot (sample_abstract_camera { sample_camera with min_fov := zero }))) 1 = false ∧
    fov_invariant (wb_camera_set_fov 1 Double.nan
      (sample_robot (sample_abstract_camera { sample_camera with min_fov := zero }))) 1 = false := by
  have hv := valid_camera_sample_robot
    (sample_abstract_camera { sample_camera with min_fov := zero })
    { sample_camera with min_fov := zero } rfl
  refine ⟨?_, ?_, ?_⟩
  · simp [fov_invariant, camera_get_abstract_camera_struct_of_valid hv,
      camera_get_struct_of_valid hv]
    simp [sample_abstract_camera, sample_camera, Double.le, Double.lt, zero, fov_bound, M_PI]
    norm_num
  · rw [wb_camera_set_fov_of_accepted hv zero (by
      simp [fov_accepted, sample_abstract_camera, sample_camera, Double.lt, Double.gt, zero,
        fov_bound, M_PI]
      norm_num), fov_invariant_with_camera]
    simp [Double.lt, zero]
  · rw [wb_camera_set_fov_of_accepted hv Double.nan (by
      simp [fov_accepted, Double.lt, Double.gt]), fov_invariant_with_camera]
    simp [Double.lt, Double.le]

theorem valid_camera_of_fov_invariant_closed {r : Robot} {tag : WbDeviceTag}
    (h : fov_invariant_closed r tag = true) :
    ∃ d ac c, valid_camera r tag d ac c ∧ c.min_fov.le ac.fov = true ∧
      ac.fov.le c.max_fov = true ∧ zero.le ac.fov = true ∧
      ac.fov.le (fov_bound ac.spherical) = true := by
  unfold fov_invariant_closed camera_get_struct camera_get_abstract_camera_struct
    camera_get_device at h
  cases hd : r.devices tag with
  | none => simp [hd] at h
  | some d =>
    cases hac : d.pdata with
    | none => simp [hd, hac] at h
    | some ac =>
      cases hc : ac.pdata with
      | none => simp [hd, hac, hc] at h
      | some c =>
        simp [hd, hac, hc] at h
        exact ⟨d, ac, c, ⟨hd, hac, hc⟩, h.1.1.1, h.1.1.2, h.1.2, h.2⟩

theorem fov_bound_not_nan (s : Bool) : (fov_bound s).isNaN = false := by
  cases s <;> rfl

/-- C2 (amended): `wb_camera_set_fov` preserves the field-of-view invariant with the
lower bound included, for every argument that is not NaN: if `min_fov <= fov <= max_fov`
and `fov` is in `[0, pi]` (planar) or `[0, 2 pi]` (spherical) before the call, the same
holds after it. When moreover `0 < min_fov`, the invariant with the open lower bound,
`fov` in `(0, pi]` or `(0, 2 pi]`, is preserved as well. -/
theorem wb_camera_set_fov_preserves_closed_invariant (r : Robot) (tag : WbDeviceTag)
    (v : Double) (hnan : v.isNaN = false) (h : fov_invariant_closed r tag = true) :
    fov_invariant_closed (wb_camera_set_fov tag v r) tag = true ∧
    (fov_invariant r tag = true → min_fov_positive r tag = true →
      fov_invariant (wb_camera_set_fov tag v r) tag = true) := by
  obtain ⟨d, ac, c, hv, hmin, hmax, h0, hb⟩ := valid_camera_of_fov_invariant_closed h
  cases hacc : fov_accepted ac c v with
  | false =>
    obtain ⟨msg, hmsg⟩ := wb_camera_set_fov_of_rejected hv v hacc
    rw [hmsg]
    exact ⟨h, fun ho _ => ho⟩
  | true =>
    rw [wb_camera_set_fov_of_accepted hv v hacc, fov_invariant_closed_with_camera,
      fov_invariant_with_camera]
    simp only [fov_accepted, Bool.and_eq_true, Bool.not_eq_true', Bool.or_eq_false_iff] at hacc
    obtain ⟨⟨a1, a2⟩, a3, a4⟩ := hacc
    have e1 : c.min_fov.le v = true :=
      Double.le_of_lt_eq_false _ _ (Double.isNaN_left_of_le _ _ hmin) hnan a3
    have e2 : v.le c.max_fov = true :=
      Double.le_of_lt_eq_false _ _ hnan (Double.isNaN_right_of_le _ _ hmax) a4
    have e3 : zero.le v = true := Double.le_of_lt_eq_false _ _ rfl hnan a1
    have e4 : v.le (fov_bound ac.spherical) = true :=
      Double.le_of_lt_eq_false _ _ hnan (fov_bound_not_nan _) a2
    refine ⟨by simp [e1, e2, e3, e4], fun _ hpos => ?_⟩
    simp only [min_fov_positive, camera_get_struct_of_valid hv] at hpos
    simp [e1, e2, e4, Double.lt_of_lt_of_le _ _ _ hpos e1]

/-- C2 (amended) at a concrete input: zoom range `[0, 1]`, planar, field of view 0.8;
after `wb_camera_set_fov(0.0)` the invariant with the closed lower bound holds. -/
theorem wb_camera_set_fov_preserves_closed_invariant_witness :
    Double.isNaN zero = false ∧
    fov_invariant_closed
      (sample_robot (sample_abstract_camera { sample_camera with min_fov := zero })) 1 = true ∧
    fov_invariant_closed (wb_camera_set_fov 1 zero
      (sample_robot (sample_abstract_camera { sample_camera with min_fov := zero }))) 1 = true :=
  have h : fov_invariant_closed
      (sample_robot (sample_abstract_camera { sample_camera with min_fov := zero })) 1 = true := by
    simp [fov_invariant_closed, camera_get_abstract_camera_struct, camera_get_struct,
      camera_get_device, sample_robot, sample_abstract_camera, sample_camera, Double.le, zero,
      fov_bound, M_PI]
    norm_num
  ⟨rfl, h, (wb_camera_set_fov_preserves_closed_invariant _ 1 zero rfl h).1⟩

/-- What `wb_camera_set_focal_distance` does on a valid camera when its test accepts
the value. -/
theorem wb_camera_set_focal_distance_of_accepted {r : Robot} {tag : WbDeviceTag}
    {d : WbDevice} {ac : AbstractCamera} {c : Camera} (hv : valid_camera r tag d ac c)
    (v : Double) (h : focal_accepted ac c v = true) :
    wb_camera_set_focal_distance tag v r =
      with_camera r tag ac { c with focal_distance := v, set_focal_distance := true } := by
  obtain ⟨hd, hac, hc⟩ := hv
  simp only [wb_camera_set_focal_distance, camera_get_abstract_camera_struct, camera_get_struct,
    camera_get_device, robot_mutex_lock_step, hd, hac, hc]
  simp [focal_accepted] at h
  simp [h, store_camera, store_abstract_camera, robot_mutex_unlock_step, with_camera, hd, hac, hc]

/-- What `wb_camera_set_focal_distance` does on a valid camera when its test rejects
the value. -/
theorem wb_camera_set_focal_distance_of_rejected {r : Robot} {tag : WbDeviceTag}
    {d : WbDevice} {ac : AbstractCamera} {c : Camera} (hv : valid_camera r tag d ac c)
    (v : Double) (h : focal_accepted ac c v = false) :
    ∃ msg, wb_camera_set_focal_distance tag v r = { r with stderr := r.stderr ++ [msg] } := by
  obtain ⟨hd, hac, hc⟩ := hv
  simp only [wb_camera_set_focal_distance, camera_get_abstract_camera_struct, camera_get_struct,
    camera_get_device, robot_mutex_lock_step, hd, hac, hc]
  cases hs : ac.spherical <;> simp only [focal_accepted, hs] at h <;>
    by_cases h3 : v.lt c.min_focal_distance = true <;>
    by_cases h4 : v.gt c.max_focal_distance = true <;>
    simp_all [fprintf_stderr, robot_mutex_unlock_step]

theorem focal_invariant_with_camera (r : Robot) (tag : WbDeviceTag) (ac : AbstractCamera)
    (c : Camera) :
    focal_invariant (with_camera r tag ac c) tag =
      (c.min_focal_distance.le c.focal_distance && c.focal_distance.le c.max_focal_distance) := by
  simp [focal_invariant, camera_get_struct_of_valid (valid_camera_with_camera r tag ac c)]

/-- C3 fails on the code at NaN: on a planar camera with focus range `[0, 1]` the test
`min_focal_distance <= NaN <= max_focal_distance` is false, yet
`wb_camera_set_focal_distance(NaN)` stores NaN and sets the focal-dirty marker (the
range check of lines 477-480 compares with `<` and `>` only, which are both false on
NaN), and the focal-distance invariant that held before no longer holds. -/
theorem wb_camera_set_focal_distance_stores_nan :
    (sample_abstract_camera sample_camera).spherical = false ∧
    (sample_camera.min_focal_distance.le Double.nan &&
      Double.nan.le sample_camera.max_focal_distance) = false ∧
    wb_camera_set_focal_distance 1 Double.nan (sample_robot (sample_abstract_camera sample_camera)) =
      with_camera (sample_robot (sample_abstract_camera sample_camera)) 1
        (sample_abstract_camera sample_camera)
        { sample_camera with focal_distance := Double.nan, set_focal_distance := true } ∧
    focal_invariant (sample_robot (sample_abstract_camera sample_camera)) 1 = true ∧
    focal_invariant (wb_camera_set_focal_distance 1 Double.nan
      (sample_robot (sample_abstract_camera sample_camera))) 1 = false := by
  have hv := valid_camera_sample_robot (sample_abstract_camera sample_camera) sample_camera rfl
  have hs := wb_camera_set_focal_distance_of_accepted hv Double.nan (by
    simp [focal_accepted, sample_abstract_camera, Double.lt, Double.gt])
  refine ⟨rfl, by simp [Double.le], hs, ?_, ?_⟩
  · simp [focal_invariant, camera_get_struct_of_valid hv]
    simp [sample_camera, Double.le]
    norm_num
  · rw [hs, focal_invariant_with_camera]
    simp [Double.le]

/-- The range check of `wb_camera_set_focal_distance` away from NaN: on a valid camera
the setter stores `v` and sets the focal-dirty marker, changing nothing else, when the
device is not spherical and neither `v < min_focal_distance` nor
`v > max_focal_distance` holds, and otherwise only prints a diagnostic. When `v` and the
two bounds are not NaN that test is `min_focal_distance <= v <= max_focal_distance`, and
for every `v` that is not NaN the setter preserves
`min_focal_distance <= focal_distance <= max_focal_distance`. -/
theorem wb_camera_set_focal_distance_contract (r : Robot) (tag : WbDeviceTag) (d : WbDevice)
    (ac : AbstractCamera) (c : Camera) (v : Double) (hv : valid_camera r tag d ac c) :
    ((ac.spherical = false ∧ v.lt c.min_focal_distance = false ∧
        v.gt c.max_focal_distance = false) →
      wb_camera_set_focal_distance tag v r =
        with_camera r tag ac { c with focal_distance := v, set_focal_distance := true }) ∧
    (¬ (ac.spherical = false ∧ v.lt c.min_focal_distance = false ∧
        v.gt c.max_focal_distance = false) →
      ∃ msg, wb_camera_set_focal_distance tag v r = { r with stderr := r.stderr ++ [msg] }) ∧
    (v.isNaN = false → c.min_focal_distance.isNaN = false →
      c.max_focal_distance.isNaN = false →
      ((v.lt c.min_focal_distance = false ∧ v.gt c.max_focal_distance = false) ↔
        (c.min_focal_distance.le v = true ∧ v.le c.max_focal_distance = true))) ∧
    (v.isNaN = false → focal_invariant r tag = true →
      focal_invariant (wb_camera_set_focal_distance tag v r) tag = true) := by
  refine ⟨?_, ?_, ?_, ?_⟩
  · rintro ⟨h1, h2, h3⟩
    exact wb_camera_set_focal_distance_of_accepted hv v (by simp [focal_accepted, h1, h2, h3])
  · intro h
    apply wb_camera_set_focal_distance_of_rejected hv
    cases hacc : focal_accepted ac c v with
    | false => rfl
    | true =>
      exfalso
      apply h
      simpa [focal_accepted] using hacc
  · intro hn hmin hmax
    constructor
    · rintro ⟨h1, h2⟩
      exact ⟨Double.le_of_lt_eq_false _ _ hmin hn h1, Double.le_of_lt_eq_false _ _ hn hmax h2⟩
    · rintro ⟨h1, h2⟩
      exact ⟨Double.lt_eq_false_of_le _ _ h1, Double.gt_eq_false_of_le _ _ h2⟩
  · intro hn hinv
    cases hacc : focal_accepted ac c v with
    | false =>
      obtain ⟨msg, hmsg⟩ := wb_camera_set_focal_distance_of_rejected hv v hacc
      rw [hmsg]
      exact hinv
    | true =>
      rw [wb_camera_set_focal_distance_of_accepted hv v hacc, focal_invariant_with_camera]
      simp only [focal_invariant, camera_get_struct_of_valid hv, Bool.and_eq_true] at hinv
      simp only [focal_accepted, Bool.and_eq_true, Bool.not_eq_true', Bool.or_eq_false_iff]
        at hacc
      simp [Double.le_of_lt_eq_false _ _ (Double.isNaN_left_of_le _ _ hinv.1) hn hacc.2.1,
        Double.le_of_lt_eq_false _ _ hn (Double.isNaN_right_of_le _ _ hinv.2) hacc.2.2]

/-- An accepted value: on the sample planar camera with focus range `[0, 1]`,
`wb_camera_set_focal_distance(0.25)` stores 0.25 and sets the marker. -/
theorem wb_camera_set_focal_distance_contract_witness :
    valid_camera (sample_robot (sample_abstract_camera sample_camera)) 1
      { pdata := some (sample_abstract_camera sample_camera) }
      (sample_abstract_camera sample_camera) sample_camera ∧
    wb_camera_set_focal_distance 1 (Double.finite (1 / 4))
        (sample_robot (sample_abstract_camera sample_camera)) =
      with_camera (sample_robot (sample_abstract_camera sample_camera)) 1
        (sample_abstract_camera sample_camera)
        { sample_camera with focal_distance := Double.finite (1 / 4),
                             set_focal_distance := true } :=
  ⟨⟨rfl, rfl, rfl⟩,
   (wb_camera_set_focal_distance_contract (sample_robot (sample_abstract_camera sample_camera))
      1 { pdata := some (sample_abstract_camera sample_camera) }
      (sample_abstract_camera sample_camera) sample_camera (Double.finite (1 / 4))
      ⟨rfl, rfl, rfl⟩).1
     (by simp [sample_abstract_camera, sample_camera, Double.lt, Double.gt]
         norm_num)⟩

theorem camera_of_eq_some {d : WbDevice} {c : Camera} (h : camera_of d = some c) :
    ∃ ac, d.pdata = some ac ∧ ac.pdata = some c := by
  unfold camera_of at h
  cases hac : d.pdata with
  | none => simp [hac] at h
  | some ac => exact ⟨ac, rfl, by simpa [hac] using h⟩

/-- The result of `wb_camera_write_request` in terms of the state the generic base
writer leaves. -/
theorem wb_camera_write_request_eq (m : Messages)
    (base : WbDevice → WbRequest → WbDevice × WbRequest) (d : WbDevice) (r : WbRequest)
    (ac : AbstractCamera) (c : Camera)
    (hac : (base d r).1.pdata = some ac) (hc : ac.pdata = some c) :
    wb_camera_write_request m base d r =
      some ({ pdata := some { ac with pdata := some { c with
                set_fov := false, set_focal_distance := false, enable_recognition := false } } },
            (base d r).2 ++
              (if c.set_fov then [Field.uchar m.C_CAMERA_SET_FOV, Field.double ac.fov]
                else []) ++
              (if c.set_focal_distance then
                [Field.uchar m.C_CAMERA_SET_FOCAL, Field.double c.focal_distance] else []) ++
              (if c.enable_recognition then
                [Field.uchar m.C_CAMERA_SET_RECOGNITION_SAMPLING_PERIOD,
                 Field.uint16 (to_uint16 c.recognition_sampling_period)] else [])) := by
  unfold wb_camera_write_request
  rcases hb : base d r with ⟨d1, r1⟩
  rw [hb] at hac
  simp only at hac
  simp only [hac, hc]
  rcases c with ⟨mf, xf, fl, fd, mfd, xfd, sfd, sf, hr, er, rsp, ron, ro⟩
  cases sf <;> cases sfd <;> cases er <;>
    simp [request_write_uchar, request_write_double, request_write_uint16]

/-- C4: the camera-specific records `wb_camera_write_request` appends, after whatever
the generic base writer appended, are exactly, in this order: `C_CAMERA_SET_FOV` with
the current field of view as a double iff the fov-dirty marker is set, then
`C_CAMERA_SET_FOCAL` with the current focal distance as a double iff the focal-dirty
marker is set, then `C_CAMERA_SET_RECOGNITION_SAMPLING_PERIOD` with the recognition
period as an unsigned 16-bit integer iff the recognition marker is set; nothing else is
appended, and the device is left as it was except that the three markers are clear. -/
theorem wb_camera_write_request_records (m : Messages)
    (base : WbDevice → WbRequest → WbDevice × WbRequest) (d : WbDevice) (r : WbRequest)
    (ac : AbstractCamera) (c : Camera)
    (hac : (base d r).1.pdata = some ac) (hc : ac.pdata = some c) :
    wb_camera_write_request m base d r =
      some ({ pdata := some { ac with pdata := some { c with
                set_fov := false, set_focal_distance := false, enable_recognition := false } } },
            (base d r).2 ++
              (if c.set_fov then [Field.uchar m.C_CAMERA_SET_FOV, Field.double ac.fov]
                else []) ++
              (if c.set_focal_distance then
                [Field.uchar m.C_CAMERA_SET_FOCAL, Field.double c.focal_distance] else []) ++
              (if c.enable_recognition then
                [Field.uchar m.C_CAMERA_SET_RECOGNITION_SAMPLING_PERIOD,
                 Field.uint16 (to_uint16 c.recognition_sampling_period)] else [])) :=
  wb_camera_write_request_eq m base d r ac c hac hc

/-- C4 at a concrete input: field of view 0.8 and recognition period 32 pending, focal
distance not pending, idle base: the flush appends the fov record, then the
recognition record, and clears the markers. -/
theorem wb_camera_write_request_records_witness :
    (idle_base { pdata := some (sample_abstract_camera { sample_camera with
        set_fov := true, enable_recognition := true, recognition_sampling_period := 32 }) }
      []).1.pdata =
      some (sample_abstract_camera { sample_camera with
        set_fov := true, enable_recognition := true, recognition_sampling_period := 32 }) ∧
    (sample_abstract_camera { sample_camera with
        set_fov := true, enable_recognition := true, recognition_sampling_period := 32 }).pdata =
      some { sample_camera with
        set_fov := true, enable_recognition := true, recognition_sampling_period := 32 } ∧
    wb_camera_write_request sample_messages idle_base
      { pdata := some (sample_abstract_camera { sample_camera with
        set_fov := true, enable_recognition := true, recognition_sampling_period := 32 }) } [] =
      some ({ pdata := some (sample_abstract_camera { sample_camera with
                recognition_sampling_period := 32 }) },
            [Field.uchar 4, Field.double (Double.finite (4 / 5)), Field.uchar 6,
             Field.uint16 32]) :=
  ⟨rfl, rfl,
   (wb_camera_write_request_records sample_messages idle_base _ [] _ _ rfl rfl).trans (by
      simp [idle_base, sample_abstract_camera, sample_camera, sample_messages, to_uint16])⟩

/-- A flush with no marker set is the generic base writer alone. -/
theorem wb_camera_write_request_of_clear (m : Messages)
    (base : WbDevice → WbRequest → WbDevice × WbRequest)
    (hbase : ∀ d r, camera_of (base d r).1 = camera_of d)
    (d : WbDevice) (r : WbRequest) (c : Camera) (hc : camera_of d = some c)
    (h1 : c.set_fov = false) (h2 : c.set_focal_distance = false)
    (h3 : c.enable_recognition = false) :
    wb_camera_write_request m base d r = some (base d r) := by
  have hc1 : camera_of (base d r).1 = some c := by rw [hbase, hc]
  obtain ⟨ac, hac, hcc⟩ := camera_of_eq_some hc1
  rw [wb_camera_write_request_eq m base d r ac c hac hcc]
  rcases hb : base d r with ⟨d1, r1⟩
  rw [hb] at hac
  rcases d1 with ⟨p⟩
  rcases ac with ⟨a1, a2, a3, a4, a5, a6, a7, a8, a9, a10, a11⟩
  rcases c with ⟨mf, xf, fl, fd, mfd, xfd, sfd, sf, hr, er, rsp, ron, ro⟩
  simp_all

/-- After a flush, any number of further flushes is the generic base writer alone, and
the `Camera` struct stays what it is. -/
theorem write_requests_of_clear (m : Messages)
    (base : WbDevice → WbRequest → WbDevice × WbRequest)
    (hbase : ∀ d r, camera_of (base d r).1 = camera_of d)
    (c : Camera) (h1 : c.set_fov = false) (h2 : c.set_focal_distance = false)
    (h3 : c.enable_recognition = false) (n : Nat) :
    ∀ (d : WbDevice) (r : WbRequest), camera_of d = some c →
      write_requests m base n d r = some (base_requests base n d r) ∧
      camera_of (base_requests base n d r).1 = some c := by
  induction n with
  | zero =>
    intro d r hc
    exact ⟨rfl, hc⟩
  | succ n ih =>
    intro d r hc
    have hc1 : camera_of (base d r).1 = some c := by rw [hbase, hc]
    have := ih (base d r).1 (base d r).2 hc1
    simp only [write_requests, base_requests,
      wb_camera_write_request_of_clear m base hbase d r c hc h1 h2 h3]
    exact this

theorem base_requests_of_idle (base : WbDevice → WbRequest → WbDevice × WbRequest)
    (hidle : ∀ d r, base d r = (d, r)) (n : Nat) (d : WbDevice) (r : WbRequest) :
    base_requests base n d r = (d, r) := by
  induction n with
  | zero => rfl
  | succ n ih => simp [base_requests, hidle, ih]

/-- C5: each staged change is transmitted exactly once. For a generic base writer that
leaves the `Camera` struct alone, `wb_camera_write_request` on a configured camera
returns, having appended after the fields of the base exactly one record for each
marker that was set (fov, then focal distance, then recognition period, each with its
current value) and nothing else, and leaves the device with all three markers false and
the rest of the `Camera` struct as it was. Any number `n` of further flushes with
nothing in between, on any request buffer, does exactly what the generic base writer
alone does `n` times: no camera-specific record is appended and the `Camera` struct
does not change. When the generic base has nothing to do either, `n + 1` flushes in a
row leave the request with those records appended once and the device as the first
flush left it. -/
theorem wb_camera_write_request_transmits_once (m : Messages)
    (base : WbDevice → WbRequest → WbDevice × WbRequest)
    (hbase : ∀ d r, camera_of (base d r).1 = camera_of d)
    (d : WbDevice) (r : WbRequest) (c : Camera) (hc : camera_of d = some c) :
    ∃ ac d1,
      (base d r).1.pdata = some ac ∧
      d1 = { pdata := some { ac with pdata := some { c with
              set_fov := false, set_focal_distance := false,
              enable_recognition := false } } } ∧
      wb_camera_write_request m base d r =
        some (d1, (base d r).2 ++
          (if c.set_fov then [Field.uchar m.C_CAMERA_SET_FOV, Field.double ac.fov] else []) ++
          (if c.set_focal_distance then
            [Field.uchar m.C_CAMERA_SET_FOCAL, Field.double c.focal_distance] else []) ++
          (if c.enable_recognition then
            [Field.uchar m.C_CAMERA_SET_RECOGNITION_SAMPLING_PERIOD,
             Field.uint16 (to_uint16 c.recognition_sampling_period)] else [])) ∧
      (∀ n r1, write_requests m base n d1 r1 = some (base_requests base n d1 r1) ∧
        camera_of (base_requests base n d1 r1).1 = camera_of d1) ∧
      ((∀ d r, base d r = (d, r)) →
        ∀ n, write_requests m base (n + 1) d r =
          some (d1, r ++
            (if c.set_fov then [Field.uchar m.C_CAMERA_SET_FOV, Field.double ac.fov]
              else []) ++
            (if c.set_focal_distance then
              [Field.uchar m.C_CAMERA_SET_FOCAL, Field.double c.focal_distance] else []) ++
            (if c.enable_recognition then
              [Field.uchar m.C_CAMERA_SET_RECOGNITION_SAMPLING_PERIOD,
               Field.uint16 (to_uint16 c.recognition_sampling_period)] else []))) := by
  have hc1 : camera_of (base d r).1 = some c := by rw [hbase, hc]
  obtain ⟨ac, hac, hcc⟩ := camera_of_eq_some hc1
  have hcam : camera_of { pdata := some { ac with pdata := some { c with
      set_fov := false, set_focal_distance := false, enable_recognition := false } } } =
      some { c with set_fov := false, set_focal_distance := false,
                    enable_recognition := false } := rfl
  have hfirst := wb_camera_write_request_eq m base d r ac c hac hcc
  refine ⟨ac, _, hac, rfl, hfirst, ?_, ?_⟩
  · intro n r1
    have := write_requests_of_clear m base hbase _ rfl rfl rfl n _ r1 hcam
    exact ⟨this.1, this.2.trans hcam.symm⟩
  · intro hidle n
    have := write_requests_of_clear m base hbase _ rfl rfl rfl n _
      ((base d r).2 ++
        (if c.set_fov then [Field.uchar m.C_CAMERA_SET_FOV, Field.double ac.fov] else []) ++
        (if c.set_focal_distance then
          [Field.uchar m.C_CAMERA_SET_FOCAL, Field.double c.focal_distance] else []) ++
        (if c.enable_recognition then
          [Field.uchar m.C_CAMERA_SET_RECOGNITION_SAMPLING_PERIOD,
           Field.uint16 (to_uint16 c.recognition_sampling_period)] else [])) hcam
    rw [write_requests, hfirst]
    simp only []
    rw [this.1, base_requests_of_idle base hidle, hidle]

/-- C5 at a concrete input: the sample camera with a field-of-view change and a
recognition period of 32 pending, and an idle base: the first flush appends the fov
record and the recognition record and clears the markers, and four flushes in a row
leave exactly those two records in the request. -/
theorem wb_camera_write_request_transmits_once_witness :
    (∀ d r, camera_of (idle_base d r).1 = camera_of d) ∧
    camera_of { pdata := some (sample_abstract_camera { sample_camera with
        set_fov := true, enable_recognition := true, recognition_sampling_period := 32 }) } =
      some { sample_camera with
        set_fov := true, enable_recognition := true, recognition_sampling_period := 32 } ∧
    wb_camera_write_request sample_messages idle_base
        { pdata := some (sample_abstract_camera { sample_camera with
          set_fov := true, enable_recognition := true, recognition_sampling_period := 32 }) }
        [] =
      some ({ pdata := some (sample_abstract_camera { sample_camera with
                recognition_sampling_period := 32 }) },
            [Field.uchar 4, Field.double (Double.finite (4 / 5)), Field.uchar 6,
             Field.uint16 32]) ∧
    write_requests sample_messages idle_base 4
        { pdata := some (sample_abstract_camera { sample_camera with
          set_fov := true, enable_recognition := true, recognition_sampling_period := 32 }) }
        [] =
      some ({ pdata := some (sample_abstract_camera { sample_camera with
                recognition_sampling_period := 32 }) },
            [Field.uchar 4, Field.double (Double.finite (4 / 5)), Field.uchar 6,
             Field.uint16 32]) := by
  obtain ⟨ac, d1, hac, hd1, hfirst, _, hall⟩ :=
    wb_camera_write_request_transmits_once sample_messages idle_base (fun _ _ => rfl)
      { pdata := some (sample_abstract_camera { sample_camera with
        set_fov := true, enable_recognition := true, recognition_sampling_period := 32 }) }
      []
      { sample_camera with
        set_fov := true, enable_recognition := true, recognition_sampling_period := 32 } rfl
  have hac2 : ac = sample_abstract_camera { sample_camera with
      set_fov := true, enable_recognition := true, recognition_sampling_period := 32 } := by
    simpa [idle_base] using hac.symm
  subst hac2
  subst hd1
  refine ⟨fun _ _ => rfl, rfl, ?_, ?_⟩
  · rw [hfirst]
    simp [idle_base, sample_abstract_camera, sample_camera, sample_messages, to_uint16]
  · rw [hall (fun _ _ => rfl) 3]
    simp [sample_abstract_camera, sample_camera, sample_messages, to_uint16]

/-- What `wb_camera_recognition_enable` does on a valid camera with the recognition
capability, for a period that is not negative. -/
theorem wb_camera_recognition_enable_of_supported {r : Robot} {tag : WbDeviceTag}
    {d : WbDevice} {ac : AbstractCamera} {c : Camera} (hv : valid_camera r tag d ac c)
    (hrec : c.has_recognition = true) (period : Int) (hp : 0 ≤ period) :
    wb_camera_recognition_enable tag period r =
      with_camera r tag ac
        { c with enable_recognition := true, recognition_sampling_period := period } := by
  obtain ⟨hd, hac, hc⟩ := hv
  simp [wb_camera_recognition_enable, not_lt.mpr hp, camera_get_abstract_camera_struct,
    camera_get_struct, camera_get_device, robot_mutex_lock_step, hd, hac, hc, hrec, store_camera,
    store_abstract_camera, robot_mutex_unlock_step, with_camera]

/-- C6: on a valid camera without the recognition capability, for every sampling
period, `wb_camera_recognition_enable` and `wb_camera_recognition_disable` only print a
diagnostic: the recognition marker, the recognition sampling period, the recognition
list, every other device field and the lock depth are unchanged. -/
theorem recognition_unsupported_untouched (r : Robot) (tag : WbDeviceTag) (d : WbDevice)
    (ac : AbstractCamera) (c : Camera) (hv : valid_camera r tag d ac c)
    (hrec : c.has_recognition = false) (period : Int) :
    (∃ msg, wb_camera_recognition_enable tag period r =
      { r with stderr := r.stderr ++ [msg] }) ∧
    (∃ msg, wb_camera_recognition_disable tag r = { r with stderr := r.stderr ++ [msg] }) := by
  obtain ⟨hd, hac, hc⟩ := hv
  constructor
  · by_cases hp : period < 0
    · exact ⟨"Error: wb_camera_recognition_enable() called with negative sampling period.\n",
        by simp [wb_camera_recognition_enable, hp, fprintf_stderr]⟩
    · refine ⟨"Error: wb_camera_recognition_enable() called on a Camera without Recognition node.\n", ?_⟩
      simp [wb_camera_recognition_enable, hp, camera_get_struct,
        camera_get_abstract_camera_struct, camera_get_device, hd, hac, hc, hrec, fprintf_stderr,
        robot_mutex_lock_step, robot_mutex_unlock_step]
  · refine ⟨"Error: wb_camera_recognition_disable() called on a Camera without Recognition node.\n", ?_⟩
    simp [wb_camera_recognition_disable, camera_get_struct,
      camera_get_abstract_camera_struct, camera_get_device, hd, hac, hc, hrec, fprintf_stderr,
      robot_mutex_lock_step, robot_mutex_unlock_step]

/-- C6 at a concrete input: the sample camera without the recognition capability,
period 32. -/
theorem recognition_unsupported_untouched_witness :
    valid_camera
      (sample_robot (sample_abstract_camera { sample_camera with has_recognition := false })) 1
      { pdata := some (sample_abstract_camera { sample_camera with has_recognition := false }) }
      (sample_abstract_camera { sample_camera with has_recognition := false })
      { sample_camera with has_recognition := false } ∧
    ({ sample_camera with has_recognition := false } : Camera).has_recognition = false ∧
    ((∃ msg, wb_camera_recognition_enable 1 32
        (sample_robot (sample_abstract_camera { sample_camera with has_recognition := false })) =
      { sample_robot (sample_abstract_camera { sample_camera with has_recognition := false })
        with stderr := [] ++ [msg] }) ∧
     (∃ msg, wb_camera_recognition_disable 1
        (sample_robot (sample_abstract_camera { sample_camera with has_recognition := false })) =
      { sample_robot (sample_abstract_camera { sample_camera with has_recognition := false })
        with stderr := [] ++ [msg] })) :=
  ⟨⟨rfl, rfl, rfl⟩, rfl,
   recognition_unsupported_untouched _ 1 _ _ _ ⟨rfl, rfl, rfl⟩ rfl 32⟩

/-- C7: on a valid camera with the recognition capability and for every period that is
not negative, `wb_camera_recognition_enable(period)` sets the recognition marker and
stores the period, changing nothing else; `wb_camera_recognition_get_sampling_period`
then returns that period; and `wb_camera_recognition_disable()` yields exactly the state
`wb_camera_recognition_enable(0)` yields. -/
theorem recognition_enable_contract (r : Robot) (tag : WbDeviceTag) (d : WbDevice)
    (ac : AbstractCamera) (c : Camera) (hv : valid_camera r tag d ac c)
    (hrec : c.has_recognition = true) (period : Int) (hp : 0 ≤ period) :
    wb_camera_recognition_enable tag period r =
      with_camera r tag ac
        { c with enable_recognition := true, recognition_sampling_period := period } ∧
    (wb_camera_recognition_get_sampling_period tag
      (wb_camera_recognition_enable tag period r)).1 = period ∧
    wb_camera_recognition_disable tag r = wb_camera_recognition_enable tag 0 r := by
  have he := wb_camera_recognition_enable_of_supported hv hrec period hp
  refine ⟨he, ?_, ?_⟩
  · rw [he]
    simp [wb_camera_recognition_get_sampling_period, camera_get_struct,
      camera_get_abstract_camera_struct, camera_get_device, robot_mutex_lock_step, with_camera,
      hrec]
  · obtain ⟨hd, hac, hc⟩ := hv
    simp [wb_camera_recognition_disable, camera_get_struct,
      camera_get_abstract_camera_struct, camera_get_device, hd, hac, hc, hrec,
      robot_mutex_lock_step, robot_mutex_unlock_step]

/-- C7 at a concrete input: the sample camera, period 32. -/
theorem recognition_enable_contract_witness :
    valid_camera (sample_robot (sample_abstract_camera sample_camera)) 1
      { pdata := some (sample_abstract_camera sample_camera) }
      (sample_abstract_camera sample_camera) sample_camera ∧
    sample_camera.has_recognition = true ∧ (0 : Int) ≤ 32 ∧
    (wb_camera_recognition_get_sampling_period 1
      (wb_camera_recognition_enable 1 32
        (sample_robot (sample_abstract_camera sample_camera)))).1 = 32 :=
  ⟨⟨rfl, rfl, rfl⟩, rfl, by decide,
   (recognition_enable_contract _ 1 _ _ _ ⟨rfl, rfl, rfl⟩ rfl 32 (by decide)).2.1⟩

/-- C8: for every state, tag and negative sampling period, `wb_camera_enable` and
`wb_camera_recognition_enable` only print a diagnostic: no device field is modified,
the lock depth and the pending markers are as before, and `wb_abstract_camera_enable`
is not called (the list of external calls is unchanged, whatever the generic base
would do). -/
theorem negative_period_rejected (base : Option WbDeviceTag → Int → Robot → Robot)
    (r : Robot) (tag : WbDeviceTag) (period : Int) (hneg : period < 0) :
    (∃ msg, wb_camera_enable base tag period r = { r with stderr := r.stderr ++ [msg] }) ∧
    (∃ msg, wb_camera_recognition_enable tag period r =
      { r with stderr := r.stderr ++ [msg] }) :=
  ⟨⟨"Error: wb_camera_enable() called with negative sampling period.\n",
      by simp [wb_camera_enable, hneg, fprintf_stderr]⟩,
   ⟨"Error: wb_camera_recognition_enable() called with negative sampling period.\n",
      by simp [wb_camera_recognition_enable, hneg, fprintf_stderr]⟩⟩

/-- C8 at a concrete input: period -1 on the sample state, with a generic base that
would do nothing. -/
theorem negative_period_rejected_witness :
    (-1 : Int) < 0 ∧
    (∃ msg, wb_camera_enable (fun _ _ r => r) 1 (-1)
        (sample_robot (sample_abstract_camera sample_camera)) =
      { sample_robot (sample_abstract_camera sample_camera) with stderr := [] ++ [msg] }) ∧
    (∃ msg, wb_camera_recognition_enable 1 (-1)
        (sample_robot (sample_abstract_camera sample_camera)) =
      { sample_robot (sample_abstract_camera sample_camera) with stderr := [] ++ [msg] }) :=
  ⟨by decide, negative_period_rejected (fun _ _ r => r) _ 1 (-1) (by decide)⟩

/-- C9: on a valid camera, `wb_camera_recognition_get_objects` returns the null
pointer and `wb_camera_recognition_get_number_of_objects` returns 0 whenever the
recognition capability is missing or the recognition sampling period is 0; otherwise
they return the stored `recognized_objects` pointer and the stored
`recognized_object_number`. Neither call modifies the devices, the lock depth or the
list of external calls; at most diagnostics are printed. -/
theorem recognition_getters_contract (r : Robot) (tag : WbDeviceTag) (d : WbDevice)
    (ac : AbstractCamera) (c : Camera) (hv : valid_camera r tag d ac c) :
    (wb_camera_recognition_get_objects tag r).1 =
      (if c.has_recognition = false ∨ c.recognition_sampling_period = 0 then ObjectPtr.null
       else { block := c.recognized_objects, index := 0 }) ∧
    (wb_camera_recognition_get_number_of_objects tag r).1 =
      (if c.has_recognition = false ∨ c.recognition_sampling_period = 0 then 0
       else c.recognized_object_number) ∧
    (∃ msgs, (wb_camera_recognition_get_objects tag r).2 =
      { r with stderr := r.stderr ++ msgs }) ∧
    (∃ msgs, (wb_camera_recognition_get_number_of_objects tag r).2 =
      { r with stderr := r.stderr ++ msgs }) := by
  obtain ⟨hd, hac, hc⟩ := hv
  cases hrec : c.has_recognition <;>
    by_cases hp : c.recognition_sampling_period = 0 <;>
    refine ⟨?_, ?_, ?_, ?_⟩ <;>
    simp [wb_camera_recognition_get_objects, wb_camera_recognition_get_number_of_objects,
      camera_get_struct, camera_get_abstract_camera_struct, camera_get_device, hd, hac, hc,
      hrec, hp, fprintf_stderr, robot_mutex_lock_step, robot_mutex_unlock_step]

/-- C9 at a concrete input: on the sample camera with recognition enabled at period 32
and a stored list of no objects, the getters return the stored pointer and count. -/
theorem recognition_getters_contract_witness :
    valid_camera
      (sample_robot (sample_abstract_camera { sample_camera with
        recognition_sampling_period := 32, recognized_objects := some [] })) 1
      { pdata := some (sample_abstract_camera { sample_camera with
        recognition_sampling_period := 32, recognized_objects := some [] }) }
      (sample_abstract_camera { sample_camera with
        recognition_sampling_period := 32, recognized_objects := some [] })
      { sample_camera with recognition_sampling_period := 32, recognized_objects := some [] } ∧
    (wb_camera_recognition_get_objects 1
      (sample_robot (sample_abstract_camera { sample_camera with
        recognition_sampling_period := 32, recognized_objects := some [] }))).1 =
      { block := some [], index := 0 } :=
  ⟨⟨rfl, rfl, rfl⟩,
   (recognition_getters_contract _ 1 _ _ _ ⟨rfl, rfl, rfl⟩).1.trans (by
      simp [sample_camera])⟩

/-- C10 fails on the code: on a valid camera without the recognition capability, and on
one whose recognition is disabled (sampling period 0), `wb_camera_recognition_get_object`
with index 1 returns `NULL + 1`, which is not the null pointer (and refers to no
object). -/
theorem wb_camera_recognition_get_object_not_null :
    (wb_camera_recognition_get_object 1 1
      (sample_robot (sample_abstract_camera { sample_camera with has_recognition := false }))).1
      = { block := none, index := 1 } ∧
    (wb_camera_recognition_get_object 1 1
      (sample_robot (sample_abstract_camera sample_camera))).1 = { block := none, index := 1 } ∧
    ({ block := none, index := 1 } : ObjectPtr) ≠ ObjectPtr.null ∧
    ObjectPtr.deref { block := none, index := 1 } = none := by
  refine ⟨?_, ?_, by simp [ObjectPtr.null], rfl⟩ <;>
    simp [wb_camera_recognition_get_object, wb_camera_recognition_get_objects, camera_get_struct,
      camera_get_abstract_camera_struct, camera_get_device, sample_robot, sample_abstract_camera,
      sample_camera, robot_mutex_lock_step, ObjectPtr.add, ObjectPtr.null]

@[simp]
theorem and_then_some {α β : Type} (a : α) (r : WbRequest) (k : α → WbRequest → Option β) :
    and_then (some (a, r)) k = k a r := rfl

@[simp]
theorem and_then_none {α β : Type} (k : α → WbRequest → Option β) :
    and_then (none : Option (α × WbRequest)) k = none := rfl

theorem read_colors_encode (n : Nat) :
    ∀ (cs : List Double) (rest : WbRequest), cs.length = 3 * n →
      read_colors n (cs.map Field.double ++ rest) = some (cs, rest) := by
  induction n with
  | zero =>
    intro cs rest h
    have : cs = [] := List.length_eq_zero.mp (by simpa using h)
    subst this
    rfl
  | succ n ih =>
    intro cs rest h
    match cs, h with
    | c0 :: c1 :: c2 :: cs, h =>
      have h3 : cs.length = 3 * n := by
        simp only [List.length_cons] at h
        omega
      simp [read_colors, request_read_double, ih cs rest h3]

theorem read_object_encode (o : WbCameraRecognitionObject) (hwf : colors_well_formed o)
    (rest : WbRequest) : read_object (encode_object o ++ rest) = some (o, rest) := by
  obtain ⟨_, hlen⟩ := hwf
  have hc := read_colors_encode _ o.colors (Field.string o.model :: rest) hlen
  simp [read_object, encode_object, request_read_int32, request_read_double,
    request_read_string, hc]

theorem read_objects_encode (l : List WbCameraRecognitionObject)
    (hwf : ∀ o ∈ l, colors_well_formed o) (rest : WbRequest) :
    read_objects l.length (encode_object_list l ++ rest) = some (l, rest) := by
  induction l with
  | nil => rfl
  | cons o l ih =>
    have ho := read_object_encode o (hwf o (List.mem_cons_self o l))
      (encode_object_list l ++ rest)
    have hl := ih (fun o' h => hwf o' (List.mem_cons_of_mem o h))
    simp only [List.length_cons, read_objects, encode_object_list, List.append_assoc, ho, hl]

/-- Decoding the OBJECTS payload of a well-formed list installs that list and its
length, whatever was stored before. -/
theorem camera_read_objects_encode (c : Camera) (l : List WbCameraRecognitionObject)
    (hwf : ∀ o ∈ l, colors_well_formed o) (rest : WbRequest) :
    camera_read_objects c (encode_objects l ++ rest) =
      some ({ c with recognized_object_number := l.length, recognized_objects := some l },
            rest) := by
  simp [camera_read_objects, encode_objects, request_read_int32,
    camera_clear_recognized_objects_list, read_objects_encode l hwf rest, malloc_objects]

/-- What `wb_camera_read_answer` does with a `C_CAMERA_OBJECTS` command that the
generic base does not consume. -/
theorem wb_camera_read_answer_objects (m : Messages) (base : AbstractCameraBase)
    (d d1 : WbDevice) (ac : AbstractCamera) (c : Camera)
    (l : List WbCameraRecognitionObject) (rest : WbRequest)
    (hwf : ∀ o ∈ l, colors_well_formed o)
    (htag1 : m.C_CAMERA_OBJECTS ≠ m.C_CONFIGURE)
    (htag2 : m.C_CAMERA_OBJECTS ≠ m.C_CAMERA_RECONFIGURE)
    (hbase : base.wb_abstract_camera_handle_command d (encode_objects l ++ rest)
      m.C_CAMERA_OBJECTS = (false, d1, encode_objects l ++ rest))
    (hac : d1.pdata = some ac) (hc : ac.pdata = some c) :
    wb_camera_read_answer m base d (Field.uchar m.C_CAMERA_OBJECTS :: (encode_objects l ++ rest)) =
      ReadAnswer.returned
        { pdata := some { ac with pdata := some { c with
            recognized_object_number := l.length, recognized_objects := some l } } }
        rest := by
  simp only [wb_camera_read_answer, request_read_uchar, hbase, htag1, htag2, if_false, if_true,
    read_objects_answer, hac, hc, camera_read_objects_encode c l hwf rest]

theorem sample_objects_well_formed : ∀ o ∈ sample_objects, colors_well_formed o := by
  simp [sample_objects, colors_well_formed]

/-- C12 fails on the code: for one object with the two colours red and green,
`wbr_camera_recognition_set_object` returns with a stored object whose two colours
are both red (every iteration of its colour loop copies `colors[0..2]`), while
decoding the OBJECTS record of the same object stores red and green. -/
theorem wbr_camera_recognition_set_object_repeats_first_colour :
    wbr_camera_recognition_set_object 1 [two_colour_object] 1
        (sample_robot (sample_abstract_camera sample_camera)) =
      some (with_camera (sample_robot (sample_abstract_camera sample_camera)) 1
        (sample_abstract_camera sample_camera)
        { sample_camera with
          recognized_object_number := 1,
          recognized_objects := some [{ two_colour_object with
            colors := [Double.finite 1, Double.finite 0, Double.finite 0,
                       Double.finite 1, Double.finite 0, Double.finite 0] }] }) ∧
    camera_read_objects sample_camera (encode_objects [two_colour_object] ++ []) =
      some ({ sample_camera with
              recognized_object_number := 1,
              recognized_objects := some [two_colour_object] }, []) ∧
    ({ two_colour_object with
        colors := [Double.finite 1, Double.finite 0, Double.finite 0,
                   Double.finite 1, Double.finite 0, Double.finite 0] } :
      WbCameraRecognitionObject) ≠ two_colour_object := by
  refine ⟨?_, ?_, ?_⟩
  · have hm : copy_model "box" = some "box" := by decide
    have hf : colors_fit 2 = true := by decide
    simp [wbr_camera_recognition_set_object, camera_get_struct,
      camera_get_abstract_camera_struct, camera_get_device, sample_robot,
      sample_abstract_camera, camera_set_object, camera_clear_recognized_objects_list,
      set_object_loop, set_object_entry, copy_colors, two_colour_object, hm, hf,
      malloc_objects, store_camera, store_abstract_camera, with_camera]
  · have h := camera_read_objects_encode sample_camera [two_colour_object]
      (by simp [two_colour_object, colors_well_formed]) []
    simpa using h
  · simp [two_colour_object]

theorem read_objects_length (n : Nat) :
    ∀ (r r1 : WbRequest) (objects : List WbCameraRecognitionObject),
      read_objects n r = some (objects, r1) → objects.length = n := by
  induction n with
  | zero =>
    intro r r1 objects h
    simp only [read_objects, Option.some.injEq, Prod.mk.injEq] at h
    rw [← h.1]
    rfl
  | succ n ih =>
    intro r r1 objects h
    simp only [read_objects] at h
    cases ho : read_object r with
    | none => simp [ho] at h
    | some p =>
      obtain ⟨o, r2⟩ := p
      simp only [ho] at h
      cases hl : read_objects n r2 with
      | none => simp [hl] at h
      | some q =>
        obtain ⟨l, r3⟩ := q
        simp only [hl, Option.some.injEq, Prod.mk.injEq] at h
        rw [← h.1, List.length_cons, ih r2 r3 l hl]

theorem set_object_loop_length (n : Nat) :
    ∀ (objects entries : List WbCameraRecognitionObject),
      set_object_loop n objects = some entries → entries.length = n := by
  induction n with
  | zero =>
    intro objects entries h
    simp only [set_object_loop, Option.some.injEq] at h
    rw [← h]
    rfl
  | succ n ih =>
    intro objects entries h
    cases objects with
    | nil => simp [set_object_loop] at h
    | cons o objects =>
      simp only [set_object_loop] at h
      cases he : set_object_entry o with
      | none => simp [he] at h
      | some e =>
        simp only [he] at h
        cases hl : set_object_loop n objects with
        | none => simp [hl] at h
        | some l =>
          simp only [hl, Option.some.injEq] at h
          rw [← h, List.length_cons, ih objects l hl]

theorem copy_colors_returns (colors : List Double) (h : 3 ≤ colors.length) (n : Nat) :
    ∃ l, copy_colors colors n = some l := by
  induction n with
  | zero => exact ⟨[], rfl⟩
  | succ n ih =>
    obtain ⟨l, hl⟩ := ih
    match colors, h with
    | c0 :: c1 :: c2 :: cs, _ => exact ⟨c0 :: c1 :: c2 :: l, by simp [copy_colors, hl]⟩

theorem colors_fit_iff (n : Int) : colors_fit n = true ↔ n ≤ 89478485 := by
  have h24 : 3 * n * ((8 : Nat) : Int) = 24 * n := by
    push_cast
    ring
  simp only [colors_fit, colors_size, to_int32, sizeof_pointer, sizeof_double,
    Bool.or_eq_true, Bool.and_eq_true, decide_eq_true_eq, h24]
  constructor
  · rintro (h | ⟨h0, h1⟩)
    · omega
    · have hlt : (24 * n + 2147483648) % 4294967296 < 4294967296 :=
        Int.emod_lt_of_pos _ (by decide)
      omega
  · intro h
    by_cases h0 : n ≤ 0
    · exact Or.inl h0
    · right
      have hmod : (24 * n + 2147483648) % 4294967296 = 24 * n + 2147483648 :=
        Int.emod_eq_of_lt (by omega) (by omega)
      rw [hmod]
      constructor <;> omega

theorem set_object_entry_returns (o : WbCameraRecognitionObject) (h : injectable o) :
    ∃ e, set_object_entry o = some e := by
  obtain ⟨hn, hc, hm⟩ := h
  have hfit : colors_fit o.number_of_colors = true := (colors_fit_iff _).mpr hn
  have hcol : ∃ l, copy_colors o.colors o.number_of_colors.toNat = some l := by
    by_cases hpos : 0 < o.number_of_colors
    · exact copy_colors_returns o.colors (hc hpos) _
    · have : o.number_of_colors.toNat = 0 := by omega
      rw [this]
      exact ⟨[], rfl⟩
  obtain ⟨l, hl⟩ := hcol
  simp [set_object_entry, hfit, hl, copy_model, hm]

/-- The colour block at the first colour count whose `int` size wraps: with 89478486
colours the size is negative, so `malloc` fails and the first store of the colour loop
goes through `NULL`; the call does not return. -/
theorem set_object_entry_wrapped_size :
    colors_size 89478486 = -2147483632 ∧
    set_object_entry { two_colour_object with number_of_colors := 89478486 } = none := by
  have h : colors_fit 89478486 = false := by
    cases hfit : colors_fit 89478486 with
    | false => rfl
    | true => exact absurd ((colors_fit_iff _).mp hfit) (by decide)
  exact ⟨by decide, by simp [set_object_entry, h]⟩

theorem set_object_loop_returns (n : Nat) :
    ∀ (objects : List WbCameraRecognitionObject), n ≤ objects.length →
      (∀ o ∈ objects, injectable o) → ∃ entries, set_object_loop n objects = some entries := by
  induction n with
  | zero => exact fun _ _ _ => ⟨[], rfl⟩
  | succ n ih =>
    intro objects hn hinj
    cases objects with
    | nil => simp at hn
    | cons o objects =>
      obtain ⟨e, he⟩ := set_object_entry_returns o (hinj o (List.mem_cons_self o objects))
      obtain ⟨l, hl⟩ := ih objects (by simpa using hn)
        (fun o' h => hinj o' (List.mem_cons_of_mem o h))
      exact ⟨e :: l, by simp [set_object_loop, he, hl]⟩

/-- The shape of the result of a replacement: only the count and the list change, the
count is the one the input announces, and the list has as many entries as the count
when that is not negative. -/
theorem replace_eq_some {c c1 : Camera} {L : ReplaceInput} (h : replace c L = some c1) :
    ∃ n l, c1 = { c with recognized_object_number := n, recognized_objects := l } ∧
      L.count = some n ∧ (0 ≤ n → n = (stored_entries c1 : Int)) := by
  cases L with
  | record payload =>
    simp only [replace, camera_read_objects, camera_clear_recognized_objects_list] at h
    cases hn : request_read_int32 payload with
    | none => simp [hn] at h
    | some p =>
      obtain ⟨n, r⟩ := p
      simp only [hn] at h
      cases hl : read_objects n.toNat r with
      | none => simp [hl] at h
      | some q =>
        obtain ⟨l, r2⟩ := q
        simp only [hl, Option.some.injEq] at h
        refine ⟨n, malloc_objects n l, h.symm, by simp [ReplaceInput.count, hn], ?_⟩
        intro h0
        rw [← h]
        simp [stored_entries, malloc_objects, not_lt.mpr h0, read_objects_length _ _ _ _ hl,
          Int.toNat_of_nonneg h0]
  | injected objects n =>
    simp only [replace, camera_set_object, camera_clear_recognized_objects_list] at h
    cases hl : set_object_loop n.toNat objects with
    | none => simp [hl] at h
    | some l =>
      simp only [hl, Option.some.injEq] at h
      refine ⟨n, malloc_objects n l, h.symm, rfl, ?_⟩
      intro h0
      rw [← h]
      simp [stored_entries, malloc_objects, not_lt.mpr h0, set_object_loop_length _ _ _ hl,
        Int.toNat_of_nonneg h0]

/-- A replacement does not depend on the count and the list stored before it. -/
theorem replace_forgets (c : Camera) (n : Int) (l : Option (List WbCameraRecognitionObject))
    (L : ReplaceInput) :
    replace { c with recognized_object_number := n, recognized_objects := l } L =
      replace c L := by
  cases L <;> rfl

/-- C13 as stated fails for a negative input count: an OBJECTS record announcing -1
objects is decoded by `wb_camera_read_answer` into the stored count -1 and no list,
and `wbr_camera_recognition_set_object` with count -1 does the same; the stored count
is then not the number of stored entries, which is 0. -/
theorem replace_negative_count :
    wb_camera_read_answer sample_messages sample_base
        { pdata := some (sample_abstract_camera sample_camera) }
        [Field.uchar sample_messages.C_CAMERA_OBJECTS, Field.int32 (-1)] =
      ReadAnswer.returned
        { pdata := some (sample_abstract_camera { sample_camera with
            recognized_object_number := -1, recognized_objects := none }) } [] ∧
    wbr_camera_recognition_set_object 1 [] (-1)
        (sample_robot (sample_abstract_camera sample_camera)) =
      some (with_camera (sample_robot (sample_abstract_camera sample_camera)) 1
        (sample_abstract_camera sample_camera)
        { sample_camera with recognized_object_number := -1, recognized_objects := none }) ∧
    ({ sample_camera with recognized_object_number := -1,
                          recognized_objects := none } : Camera).recognized_object_number ≠
      (stored_entries { sample_camera with recognized_object_number := -1,
                                           recognized_objects := none } : Int) := by
  refine ⟨?_, ?_, by decide⟩
  · simp [wb_camera_read_answer, request_read_uchar, sample_base, sample_messages,
      read_objects_answer, sample_abstract_camera, camera_read_objects, request_read_int32,
      camera_clear_recognized_objects_list, read_objects, malloc_objects]
  · simp [wbr_camera_recognition_set_object, camera_get_struct,
      camera_get_abstract_camera_struct, camera_get_device, sample_robot,
      sample_abstract_camera, camera_set_object, camera_clear_recognized_objects_list,
      set_object_loop, malloc_objects, store_camera, store_abstract_camera, with_camera]

/-- C13 (amended): whole-list replacement. For every pair of replace inputs `L1` then
`L2`, each delivered by an OBJECTS record or by `wbr_camera_recognition_set_object`:
after the second replacement the stored list contains no entry of `L1` (the state is
the one the replacement by `L2` leaves when `L1` was never delivered, so every stored
entry was built from `L2`) and the stored object count equals the input count of `L2`;
and after any single replacement, for every input count that is not negative, the
stored object count equals the number of entries in the stored list. A replacement
returns for every OBJECTS record of a list with well-formed colour arrays of at most
89478485 colours, and for every injected array of in-bounds objects with a count
between 0 and its length. -/
theorem replace_whole_list (c c1 : Camera) (L1 L2 : ReplaceInput)
    (h1 : replace c L1 = some c1) :
    replace c1 L2 = replace c L2 ∧
    (∀ c2, replace c1 L2 = some c2 → L2.count = some c2.recognized_object_number) ∧
    L1.count = some c1.recognized_object_number ∧
    (0 ≤ c1.recognized_object_number →
      c1.recognized_object_number = (stored_entries c1 : Int)) ∧
    (∀ l rest, (∀ o ∈ l, colors_well_formed o ∧ o.number_of_colors ≤ 89478485) →
      ∃ c2, replace c1 (ReplaceInput.record (encode_objects l ++ rest)) = some c2) ∧
    (∀ objects (n : Nat), n ≤ objects.length → (∀ o ∈ objects, injectable o) →
      ∃ c2, replace c1 (ReplaceInput.injected objects n) = some c2) := by
  obtain ⟨n, l, hc1, hcount, hentries⟩ := replace_eq_some h1
  refine ⟨?_, ?_, ?_, ?_, ?_, ?_⟩
  · rw [hc1, replace_forgets]
  · intro c2 h2
    obtain ⟨n2, l2, hc2, hcount2, _⟩ := replace_eq_some h2
    rw [hcount2, hc2]
  · rw [hcount, hc1]
  · intro h0
    have : c1.recognized_object_number = n := by rw [hc1]
    rw [this] at h0 ⊢
    exact hentries h0
  · intro l' rest hwf
    rw [replace, camera_read_objects_encode c1 l' (fun o ho => (hwf o ho).1) rest]
    exact ⟨_, rfl⟩
  · intro objects n' hn hinj
    obtain ⟨entries, he⟩ := set_object_loop_returns n' objects hn hinj
    simp only [replace, camera_set_object, Int.toNat_ofNat, he]
    exact ⟨_, rfl⟩

/-- C13 (amended) at a concrete input: the sample list delivered by an OBJECTS record,
then one object injected; the stored list is then the injected object alone and the
count is 1. -/
theorem replace_whole_list_witness :
    replace sample_camera (ReplaceInput.record (encode_objects sample_objects ++ [])) =
      some { sample_camera with recognized_object_number := 2,
                                recognized_objects := some sample_objects } ∧
    replace { sample_camera with recognized_object_number := 2,
                                 recognized_objects := some sample_objects }
        (ReplaceInput.injected (sample_objects.drop 1) 1) =
      replace sample_camera (ReplaceInput.injected (sample_objects.drop 1) 1) ∧
    replace sample_camera (ReplaceInput.injected (sample_objects.drop 1) 1) =
      some { sample_camera with recognized_object_number := 1,
                                recognized_objects := some (sample_objects.drop 1) } := by
  have h1 : replace sample_camera (ReplaceInput.record (encode_objects sample_objects ++ [])) =
      some { sample_camera with recognized_object_number := 2,
                                recognized_objects := some sample_objects } := by
    simp only [replace, camera_read_objects_encode sample_camera sample_objects
      sample_objects_well_formed []]
    rfl
  refine ⟨h1, (replace_whole_list _ _ _ (ReplaceInput.injected (sample_objects.drop 1) 1) h1).1,
    ?_⟩
  have hm : copy_model "ball" = some "ball" := by decide
  have hf : colors_fit 0 = true := by decide
  simp [replace, camera_set_object, camera_clear_recognized_objects_list, sample_objects,
    set_object_loop, set_object_entry, copy_colors, hm, hf, malloc_objects]

/-- Indexed access after a replacement by the wire path. On a camera with recognition
supported and enabled (sampling period not 0), after the OBJECTS record of a list of
`n` objects with well-formed colour arrays has been decoded,
`wb_camera_recognition_get_object(i)` points, for every `0 <= i < n`, to the `i`-th
object of that list, with its colour array of exactly `number_of_colors` triples and
its model name. -/
theorem get_object_after_replace (m : Messages) (base : AbstractCameraBase) (r : Robot)
    (tag : WbDeviceTag) (d d1 : WbDevice) (ac : AbstractCamera) (c : Camera)
    (l : List WbCameraRecognitionObject) (rest : WbRequest)
    (hd : r.devices tag = some d)
    (hwf : ∀ o ∈ l, colors_well_formed o)
    (htag1 : m.C_CAMERA_OBJECTS ≠ m.C_CONFIGURE)
    (htag2 : m.C_CAMERA_OBJECTS ≠ m.C_CAMERA_RECONFIGURE)
    (hbase : base.wb_abstract_camera_handle_command d (encode_objects l ++ rest)
      m.C_CAMERA_OBJECTS = (false, d1, encode_objects l ++ rest))
    (hac : d1.pdata = some ac) (hc : ac.pdata = some c)
    (hrec : c.has_recognition = true) (hper : c.recognition_sampling_period ≠ 0) :
    ∃ r1, robot_read_answer m base tag
        (Field.uchar m.C_CAMERA_OBJECTS :: (encode_objects l ++ rest)) r = some r1 ∧
      ∀ i : Nat, i < l.length →
        ∃ o, l.get? i = some o ∧
          (wb_camera_recognition_get_object tag i r1).1.deref = some o ∧
          o.colors.length = 3 * o.number_of_colors.toNat := by
  have hr : robot_read_answer m base tag
      (Field.uchar m.C_CAMERA_OBJECTS :: (encode_objects l ++ rest)) r =
      some { r with devices := Function.update r.devices tag (some
        { pdata := some { ac with pdata := some { c with
            recognized_object_number := l.length, recognized_objects := some l } } }) } := by
    simp only [robot_read_answer, hd,
      wb_camera_read_answer_objects m base d d1 ac c l rest hwf htag1 htag2 hbase hac hc]
  refine ⟨_, hr, ?_⟩
  intro i hi
  have hget : l.get? i = some (l.get ⟨i, hi⟩) := List.get?_eq_get hi
  refine ⟨l.get ⟨i, hi⟩, hget, ?_, (hwf _ (List.get_mem l i hi)).2⟩
  simp [wb_camera_recognition_get_object, wb_camera_recognition_get_objects, camera_get_struct,
    camera_get_abstract_camera_struct, camera_get_device, robot_mutex_lock_step, hrec, hper,
    ObjectPtr.add, ObjectPtr.deref, hget]

/-- The scenario of the spec on the wire path: after the OBJECTS record of two objects,
the first with three colours and the second with none, has been decoded,
`wb_camera_recognition_get_object(1)` points to an object with an empty colour array
and the model name of the second. -/
theorem get_object_after_replace_witness :
    ∃ r1, robot_read_answer sample_messages sample_base 1
        (Field.uchar sample_messages.C_CAMERA_OBJECTS :: (encode_objects sample_objects ++ []))
        (sample_robot (sample_abstract_camera { sample_camera with
          recognition_sampling_period := 32 })) = some r1 ∧
      ∃ o, (wb_camera_recognition_get_object 1 1 r1).1.deref = some o ∧
        o.colors = [] ∧ o.model = "ball" := by
  obtain ⟨r1, h1, h2⟩ := get_object_after_replace sample_messages sample_base
    (sample_robot (sample_abstract_camera { sample_camera with
      recognition_sampling_period := 32 })) 1 _ _ _ _ sample_objects [] rfl
    sample_objects_well_formed (by decide) (by decide) rfl rfl rfl rfl (by decide)
  obtain ⟨o, ho, hderef, _⟩ := h2 1 (by decide)
  refine ⟨r1, h1, o, by simpa using hderef, ?_⟩
  simp [sample_objects] at ho
  subst ho
  exact ⟨rfl, rfl⟩

/-- What `wb_camera_read_answer` does with a `C_CONFIGURE` command that the generic
base does not consume. -/
theorem wb_camera_read_answer_configure (m : Messages) (base : AbstractCameraBase)
    (d d1 : WbDevice) (uid width height : Nat) (fov camnear : Double) (spherical : Nat)
    (min_fov max_fov : Double) (has_recognition : Nat)
    (focal_length focal_distance min_focal_distance max_focal_distance : Double)
    (rest : WbRequest) (ac : AbstractCamera)
    (hbase : base.wb_abstract_camera_handle_command d
      (configure_payload uid width height fov camnear spherical min_fov max_fov
        has_recognition focal_length focal_distance min_focal_distance max_focal_distance
        ++ rest) m.C_CONFIGURE =
      (false, d1, configure_payload uid width height fov camnear spherical min_fov max_fov
        has_recognition focal_length focal_distance min_focal_distance max_focal_distance
        ++ rest))
    (hnew : (base.wb_abstract_camera_new (wb_camera_cleanup base d1) uid width height fov
      camnear (spherical != 0)).pdata = some ac) :
    wb_camera_read_answer m base d (Field.uchar m.C_CONFIGURE ::
      (configure_payload uid width height fov camnear spherical min_fov max_fov
        has_recognition focal_length focal_distance min_focal_distance max_focal_distance
        ++ rest)) =
      ReadAnswer.returned
        { pdata := some { ac with pdata := some (
            { min_fov := min_fov, max_fov := max_fov, focal_length := focal_length,
              focal_distance := focal_distance, min_focal_distance := min_focal_distance,
              max_focal_distance := max_focal_distance, set_focal_distance := false,
              set_fov := false, has_recognition := (has_recognition != 0),
              enable_recognition := false, recognition_sampling_period := 0,
              recognized_object_number := 0, recognized_objects := none } : Camera) } }
        rest := by
  simp only [wb_camera_read_answer, request_read_uchar, hbase, if_true]
  simp [read_configure, configure_payload, request_read_uint32, request_read_uint16,
    request_read_double, request_read_uchar, wb_camera_new, hnew]

/-- C15: CONFIGURE decoding. For every prior device (configured or not) and every
CONFIGURE record that the generic base does not consume, `wb_camera_read_answer` reads
id, width, height, fov, near, spherical flag, min fov, max fov, recognition flag, focal
length, focal distance, min and max focal distance in that order; the device it leaves
is the generic struct the base constructor builds from id, width, height, fov, near and
the spherical flag (non-zero = true), in front of a fresh `Camera` struct that holds
exactly the decoded values with the three pending markers false, recognition sampling
period 0, object count 0 and no recognition list. Nothing of the previous `Camera`
struct enters the result. -/
theorem configure_decoding (m : Messages) (base : AbstractCameraBase)
    (d d1 : WbDevice) (uid width height : Nat) (fov camnear : Double) (spherical : Nat)
    (min_fov max_fov : Double) (has_recognition : Nat)
    (focal_length focal_distance min_focal_distance max_focal_distance : Double)
    (rest : WbRequest) (ac : AbstractCamera)
    (hbase : base.wb_abstract_camera_handle_command d
      (configure_payload uid width height fov camnear spherical min_fov max_fov
        has_recognition focal_length focal_distance min_focal_distance max_focal_distance
        ++ rest) m.C_CONFIGURE =
      (false, d1, configure_payload uid width height fov camnear spherical min_fov max_fov
        has_recognition focal_length focal_distance min_focal_distance max_focal_distance
        ++ rest))
    (hnew : (base.wb_abstract_camera_new (wb_camera_cleanup base d1) uid width height fov
      camnear (spherical != 0)).pdata = some ac) :
    wb_camera_read_answer m base d (Field.uchar m.C_CONFIGURE ::
      (configure_payload uid width height fov camnear spherical min_fov max_fov
        has_recognition focal_length focal_distance min_focal_distance max_focal_distance
        ++ rest)) =
      ReadAnswer.returned
        { pdata := some { ac with pdata := some (
            { min_fov := min_fov, max_fov := max_fov, focal_length := focal_length,
              focal_distance := focal_distance, min_focal_distance := min_focal_distance,
              max_focal_distance := max_focal_distance, set_focal_distance := false,
              set_fov := false, has_recognition := (has_recognition != 0),
              enable_recognition := false, recognition_sampling_period := 0,
              recognized_object_number := 0, recognized_objects := none } : Camera) } }
        rest :=
  wb_camera_read_answer_configure m base d d1 uid width height fov camnear spherical min_fov
    max_fov has_recognition focal_length focal_distance min_focal_distance max_focal_distance
    rest ac hbase hnew

/-- C15 at a concrete input: a camera with a pending field-of-view change, recognition
enabled at period 32 and a stored list of two objects receives a CONFIGURE record; the
device it is left with holds the decoded values, no pending marker, period 0 and no
list. -/
theorem configure_decoding_witness :
    wb_camera_read_answer sample_messages sample_base
        { pdata := some (sample_abstract_camera { sample_camera with
            set_fov := true, recognition_sampling_period := 32,
            recognized_object_number := 2, recognized_objects := some sample_objects }) }
        (Field.uchar sample_messages.C_CONFIGURE ::
          (configure_payload 5 320 240 (Double.finite 1) (Double.finite (1 / 10)) 1
            (Double.finite (1 / 2)) (Double.finite 2) 0 (Double.finite 3) (Double.finite 4)
            (Double.finite 0) (Double.finite 8) ++ [])) =
      ReadAnswer.returned
        { pdata := some
            { enable := false, sampling_period := 0, unique_id := 5, width := 320,
              height := 240, camnear := Double.finite (1 / 10), spherical := true,
              fov := Double.finite 1, image_requested := false, image := none,
              pdata := some
                { min_fov := Double.finite (1 / 2), max_fov := Double.finite 2,
                  focal_length := Double.finite 3, focal_distance := Double.finite 4,
                  min_focal_distance := Double.finite 0,
                  max_focal_distance := Double.finite 8, set_focal_distance := false,
                  set_fov := false, has_recognition := false, enable_recognition := false,
                  recognition_sampling_period := 0, recognized_object_number := 0,
                  recognized_objects := none } } } [] :=
  configure_decoding sample_messages sample_base _ _ 5 320 240 (Double.finite 1)
    (Double.finite (1 / 10)) 1 (Double.finite (1 / 2)) (Double.finite 2) 0 (Double.finite 3)
    (Double.finite 4) (Double.finite 0) (Double.finite 8) [] _ rfl rfl

/-- What `wb_camera_read_answer` does with a `C_CAMERA_RECONFIGURE` command that the
generic base does not consume. -/
theorem wb_camera_read_answer_reconfigure (m : Messages) (base : AbstractCameraBase)
    (d d1 : WbDevice) (ac : AbstractCamera) (c : Camera) (fov camnear : Double)
    (spherical : Nat) (min_fov max_fov : Double) (has_recognition : Nat)
    (focal_length focal_distance min_focal_distance max_focal_distance : Double)
    (rest : WbRequest)
    (htag : m.C_CAMERA_RECONFIGURE ≠ m.C_CONFIGURE)
    (hbase : base.wb_abstract_camera_handle_command d
      (reconfigure_payload fov camnear spherical min_fov max_fov has_recognition focal_length
        focal_distance min_focal_distance max_focal_distance ++ rest)
      m.C_CAMERA_RECONFIGURE =
      (false, d1, reconfigure_payload fov camnear spherical min_fov max_fov has_recognition
        focal_length focal_distance min_focal_distance max_focal_distance ++ rest))
    (hac : d1.pdata = some ac) (hc : ac.pdata = some c) :
    wb_camera_read_answer m base d (Field.uchar m.C_CAMERA_RECONFIGURE ::
      (reconfigure_payload fov camnear spherical min_fov max_fov has_recognition focal_length
        focal_distance min_focal_distance max_focal_distance ++ rest)) =
      ReadAnswer.returned
        { pdata := some { ac with
            fov := fov, camnear := camnear, spherical := (spherical != 0),
            pdata := some { c with
              min_fov := min_fov, max_fov := max_fov,
              has_recognition := (has_recognition != 0), focal_length := focal_length,
              focal_distance := focal_distance, min_focal_distance := min_focal_distance,
              max_focal_distance := max_focal_distance } } }
        rest := by
  simp only [wb_camera_read_answer, request_read_uchar, hbase, htag, if_false, if_true]
  simp [read_reconfigure, reconfigure_payload, request_read_double, request_read_uchar, hac, hc]

/-- C16: RECONFIGURE decoding. For every configured device and every RECONFIGURE record
that the generic base does not consume, the device after `wb_camera_read_answer` is the
device before with fov, near, spherical flag, min fov, max fov, recognition flag, focal
length, focal distance, min and max focal distance replaced, in that read order, by
the decoded values, whatever they are (no range check); width, height, the three
pending markers, the recognition sampling period and the recognition list are
unchanged. -/
theorem reconfigure_decoding (m : Messages) (base : AbstractCameraBase)
    (d d1 : WbDevice) (ac : AbstractCamera) (c : Camera) (fov camnear : Double)
    (spherical : Nat) (min_fov max_fov : Double) (has_recognition : Nat)
    (focal_length focal_distance min_focal_distance max_focal_distance : Double)
    (rest : WbRequest)
    (htag : m.C_CAMERA_RECONFIGURE ≠ m.C_CONFIGURE)
    (hbase : base.wb_abstract_camera_handle_command d
      (reconfigure_payload fov camnear spherical min_fov max_fov has_recognition focal_length
        focal_distance min_focal_distance max_focal_distance ++ rest)
      m.C_CAMERA_RECONFIGURE =
      (false, d1, reconfigure_payload fov camnear spherical min_fov max_fov has_recognition
        focal_length focal_distance min_focal_distance max_focal_distance ++ rest))
    (hac : d1.pdata = some ac) (hc : ac.pdata = some c) :
    wb_camera_read_answer m base d (Field.uchar m.C_CAMERA_RECONFIGURE ::
      (reconfigure_payload fov camnear spherical min_fov max_fov has_recognition focal_length
        focal_distance min_focal_distance max_focal_distance ++ rest)) =
      ReadAnswer.returned
        { pdata := some { ac with
            fov := fov, camnear := camnear, spherical := (spherical != 0),
            pdata := some { c with
              min_fov := min_fov, max_fov := max_fov,
              has_recognition := (has_recognition != 0), focal_length := focal_length,
              focal_distance := focal_distance, min_focal_distance := min_focal_distance,
              max_focal_distance := max_focal_distance } } }
        rest :=
  wb_camera_read_answer_reconfigure m base d d1 ac c fov camnear spherical min_fov max_fov
    has_recognition focal_length focal_distance min_focal_distance max_focal_distance rest
    htag hbase hac hc

/-- C16 at a concrete input: a RECONFIGURE record with field of view 2, min fov 3 and
max fov 1 is stored as received on the sample camera with a pending field-of-view
change; the marker stays set. -/
theorem reconfigure_decoding_witness :
    sample_messages.C_CAMERA_RECONFIGURE ≠ sample_messages.C_CONFIGURE ∧
    wb_camera_read_answer sample_messages sample_base
        { pdata := some (sample_abstract_camera { sample_camera with set_fov := true }) }
        (Field.uchar sample_messages.C_CAMERA_RECONFIGURE ::
          (reconfigure_payload (Double.finite 2) (Double.finite (1 / 10)) 0
            (Double.finite 3) (Double.finite 1) 1 (Double.finite 0) (Double.finite 5)
            (Double.finite 6) (Double.finite 4) ++ [])) =
      ReadAnswer.returned
        { pdata := some { sample_abstract_camera { sample_camera with set_fov := true } with
            fov := Double.finite 2, camnear := Double.finite (1 / 10), spherical := false,
            pdata := some { sample_camera with
              set_fov := true, min_fov := Double.finite 3, max_fov := Double.finite 1,
              has_recognition := true, focal_length := Double.finite 0,
              focal_distance := Double.finite 5, min_focal_distance := Double.finite 6,
              max_focal_distance := Double.finite 4 } } } [] :=
  ⟨by decide,
   (reconfigure_decoding sample_messages sample_base
     { pdata := some (sample_abstract_camera { sample_camera with set_fov := true }) }
     { pdata := some (sample_abstract_camera { sample_camera with set_fov := true }) }
     (sample_abstract_camera { sample_camera with set_fov := true })
     { sample_camera with set_fov := true } (Double.finite 2)
     (Double.finite (1 / 10)) 0 (Double.finite 3) (Double.finite 1) 1 (Double.finite 0)
     (Double.finite 5) (Double.finite 6) (Double.finite 4) [] (by decide) rfl rfl rfl).trans
     (by simp [sample_abstract_camera, sample_camera])⟩

/-- C17: for every command byte that the generic base does not consume and that is
none of `C_CONFIGURE`, `C_CAMERA_RECONFIGURE`, `C_CAMERA_OBJECTS`,
`wb_camera_read_answer` ends at `ROBOT_ASSERT(0)` with the device and the request
exactly as the generic base handler left them: `camera.c` itself has read nothing
beyond the command byte and modified no field of the device. -/
theorem unknown_command_is_fatal (m : Messages) (base : AbstractCameraBase)
    (d d1 : WbDevice) (command : Nat) (r r1 : WbRequest)
    (h1 : command ≠ m.C_CONFIGURE) (h2 : command ≠ m.C_CAMERA_RECONFIGURE)
    (h3 : command ≠ m.C_CAMERA_OBJECTS)
    (hbase : base.wb_abstract_camera_handle_command d r command = (false, d1, r1)) :
    wb_camera_read_answer m base d (Field.uchar command :: r) =
      ReadAnswer.assertion_failed d1 r1 := by
  simp only [wb_camera_read_answer, request_read_uchar, hbase, h1, h2, h3, if_false]

/-- C17 at a concrete input: command byte 99, followed by a double, on the sample
camera with a base that consumes nothing: the call ends at the assertion with the
device untouched and the double unread. -/
theorem unknown_command_is_fatal_witness :
    (99 : Nat) ≠ sample_messages.C_CONFIGURE ∧
    (99 : Nat) ≠ sample_messages.C_CAMERA_RECONFIGURE ∧
    (99 : Nat) ≠ sample_messages.C_CAMERA_OBJECTS ∧
    wb_camera_read_answer sample_messages sample_base
        { pdata := some (sample_abstract_camera sample_camera) }
        [Field.uchar 99, Field.double (Double.finite 1)] =
      ReadAnswer.assertion_failed { pdata := some (sample_abstract_camera sample_camera) }
        [Field.double (Double.finite 1)] :=
  ⟨by decide, by decide, by decide,
   unknown_command_is_fatal sample_messages sample_base _ _ 99 _ _ (by decide) (by decide)
     (by decide) rfl⟩

/-- C18 fails on the code: with the lock free and no camera under tag 2,
`wb_camera_set_fov(2, 0.5)` and `wb_camera_set_focal_distance(2, 0.5)` return with the
step lock still held once (their invalid-tag branch returns before the unlock), while
`wb_camera_recognition_enable(2, 32)` returns with the lock free. -/
theorem setters_keep_lock_on_invalid_tag :
    (sample_robot (sample_abstract_camera sample_camera)).devices 2 = none ∧
    (sample_robot (sample_abstract_camera sample_camera)).step_mutex = 0 ∧
    (wb_camera_set_fov 2 (Double.finite (1 / 2))
      (sample_robot (sample_abstract_camera sample_camera))).step_mutex = 1 ∧
    (wb_camera_set_focal_distance 2 (Double.finite (1 / 2))
      (sample_robot (sample_abstract_camera sample_camera))).step_mutex = 1 ∧
    (wb_camera_recognition_enable 2 32
      (sample_robot (sample_abstract_camera sample_camera))).step_mutex = 0 := by
  refine ⟨rfl, rfl, ?_, ?_, ?_⟩ <;>
    simp [wb_camera_set_fov, wb_camera_set_focal_distance, wb_camera_recognition_enable,
      camera_get_struct, camera_get_abstract_camera_struct, camera_get_device, sample_robot,
      robot_mutex_lock_step, robot_mutex_unlock_step, fprintf_stderr]

/-- C19: remote-mode transition. With the device and the request as the base toggle
leaves them: when the image sampling period is not 0, `camera_toggle_remote` sets the
enable flag and the image-requested flag, the fov-dirty marker becomes (its previous
value OR `wbr_camera_set_fov` is registered) and the focal-dirty marker becomes (its
previous value OR `wbr_camera_set_focal_distance` is registered); when the image
sampling period is 0, the enable flag, the image-requested flag and both markers are
unchanged. In both cases the recognition marker becomes (its previous value OR the
recognition sampling period is not 0) and nothing else changes. -/
theorem camera_toggle_remote_contract (base : AbstractCameraBase)
    (defined : String → Bool) (d d1 : WbDevice) (r r1 : WbRequest)
    (ac : AbstractCamera) (c : Camera)
    (hbase : base.abstract_camera_toggle_remote d r = (d1, r1))
    (hac : d1.pdata = some ac) (hc : ac.pdata = some c) :
    (ac.sampling_period ≠ 0 →
      camera_toggle_remote base defined d r =
        some ({ pdata := some { ac with
                  enable := true, image_requested := true,
                  pdata := some { c with
                    set_fov := c.set_fov || defined "wbr_camera_set_fov",
                    set_focal_distance :=
                      c.set_focal_distance || defined "wbr_camera_set_focal_distance",
                    enable_recognition :=
                      c.enable_recognition || (c.recognition_sampling_period != 0) } } },
              r1)) ∧
    (ac.sampling_period = 0 →
      camera_toggle_remote base defined d r =
        some ({ pdata := some { ac with
                  pdata := some { c with
                    enable_recognition :=
                      c.enable_recognition || (c.recognition_sampling_period != 0) } } },
              r1)) := by
  rcases c with ⟨mf, xf, fl, fd, mfd, xfd, sfd, sf, hr, er, rsp, ron, ro⟩
  constructor
  · intro hs
    simp only [camera_toggle_remote, hbase, hac, hc, hs, ne_eq, not_false_eq_true, if_true]
    by_cases hp : rsp = 0 <;>
      cases h1 : defined "wbr_camera_set_fov" <;>
      cases h2 : defined "wbr_camera_set_focal_distance" <;>
      simp [hp]
  · intro hs
    simp only [camera_toggle_remote, hbase, hac, hc, hs, ne_eq, not_true_eq_false, if_false]
    by_cases hp : rsp = 0 <;> simp [hp]

/-- C19 at a concrete input: the sample camera enabled at period 16, nothing pending,
only `wbr_camera_set_fov` registered: after the toggle the fov-dirty marker is set
and the focal-dirty marker is not. -/
theorem camera_toggle_remote_contract_witness :
    ({ sample_abstract_camera sample_camera with sampling_period := 16 } :
      AbstractCamera).sampling_period ≠ 0 ∧
    camera_toggle_remote sample_base (fun name => name == "wbr_camera_set_fov")
        { pdata := some { sample_abstract_camera sample_camera with sampling_period := 16 } }
        [] =
      some ({ pdata := some { sample_abstract_camera { sample_camera with set_fov := true }
                with sampling_period := 16, enable := true, image_requested := true } },
            []) :=
  ⟨by decide,
   ((camera_toggle_remote_contract sample_base (fun name => name == "wbr_camera_set_fov")
      { pdata := some { sample_abstract_camera sample_camera with sampling_period := 16 } }
      { pdata := some { sample_abstract_camera sample_camera with sampling_period := 16 } }
      [] [] { sample_abstract_camera sample_camera with sampling_period := 16 } sample_camera
      rfl rfl rfl).1 (by decide)).trans (by
        simp [sample_abstract_camera, sample_camera])⟩

/-- The locked part of `wb_camera_save_image` starts by acquiring the step lock: when
the image request, whose body is not in `camera.c`, only adds to the list of calls, the
list after the locked part is the list before it, then the acquisition of the lock,
then the rest. -/
theorem save_image_locked_calls (api : ImageApi) (tag : WbDeviceTag) (f : String)
    (quality : Int) (r : Robot)
    (happ : ∀ t r0, ∃ more, (api.abstract_camera_request_image t r0).2.calls = r0.calls ++ more) :
    ∃ rest, (save_image_locked api tag f quality r).2.calls =
      r.calls ++ ExternalCall.robot_mutex_lock_step :: rest := by
  have hlock : (call_robot_mutex_lock_step r).calls =
      r.calls ++ [ExternalCall.robot_mutex_lock_step] := rfl
  obtain ⟨more, hmore⟩ := happ tag (call_robot_mutex_lock_step r)
  rw [hlock] at hmore
  rw [save_image_locked]
  cases hac : camera_get_abstract_camera_struct (call_robot_mutex_lock_step r) tag with
  | none =>
    exact ⟨[ExternalCall.robot_mutex_unlock_step], by
      simp [hac, hlock, call_robot_mutex_unlock_step, fprintf_stderr, robot_mutex_unlock_step]⟩
  | some ac =>
    cases himg : ac.image with
    | none =>
      exact ⟨[ExternalCall.robot_mutex_unlock_step], by
        simp [hac, himg, hlock, call_robot_mutex_unlock_step, robot_mutex_unlock_step]⟩
    | some img =>
      cases hs : (api.abstract_camera_request_image tag (call_robot_mutex_lock_step r)).1 with
      | false =>
        exact ⟨more ++ [ExternalCall.abstract_camera_request_image tag,
            ExternalCall.robot_mutex_unlock_step], by
          simp [hac, himg, call_abstract_camera_request_image, hs, call_robot_mutex_unlock_step,
            robot_mutex_unlock_step, hmore]⟩
      | true =>
        exact ⟨more ++ [ExternalCall.abstract_camera_request_image tag,
            ExternalCall.g_image_save f quality, ExternalCall.robot_mutex_unlock_step], by
          simp [hac, himg, call_abstract_camera_request_image, hs, call_g_image_save,
            call_robot_mutex_unlock_step, robot_mutex_unlock_step, hmore]⟩

/-- C20: validation precedes all I/O in `wb_camera_save_image`. For every file name,
quality, tag and state: if the file name is `NULL` or empty, or its detected type is
neither PNG nor JPEG, or its type is JPEG and the quality is outside `[1, 100]`, the
call returns -1 and only prints a diagnostic. The list of calls, in which this function
records every acquisition and release of the step lock, every image request and every
call of the encoder, is unchanged: the lock is not acquired, no image is requested and
the encoder is not called. A non-empty PNG file name passes the validation for every
quality: the call is then the locked part, and (when the image request only adds to the
list of calls) the list of calls continues with the acquisition of the lock. -/
theorem save_image_validation (api : ImageApi) (tag : WbDeviceTag) (filename : Option String)
    (quality : Int) (r : Robot) :
    ((filename = none ∨ filename = some "" ∨
        ∃ f, filename = some f ∧
          ((api.g_image_get_type f ≠ GImageType.G_IMAGE_PNG ∧
              api.g_image_get_type f ≠ GImageType.G_IMAGE_JPEG) ∨
            (api.g_image_get_type f = GImageType.G_IMAGE_JPEG ∧
              (quality < 1 ∨ 100 < quality)))) →
      ∃ msg, wb_camera_save_image api tag filename quality r =
        (-1, { r with stderr := r.stderr ++ [msg] })) ∧
    (∀ f, filename = some f → f ≠ "" → api.g_image_get_type f = GImageType.G_IMAGE_PNG →
      wb_camera_save_image api tag filename quality r =
        save_image_locked api tag f quality r) ∧
    (∀ f, filename = some f → f ≠ "" → api.g_image_get_type f = GImageType.G_IMAGE_PNG →
      (∀ t r0, ∃ more, (api.abstract_camera_request_image t r0).2.calls = r0.calls ++ more) →
      ∃ rest, (wb_camera_save_image api tag filename quality r).2.calls =
        r.calls ++ ExternalCall.robot_mutex_lock_step :: rest) := by
  have hpass : ∀ f, filename = some f → f ≠ "" →
      api.g_image_get_type f = GImageType.G_IMAGE_PNG →
      wb_camera_save_image api tag filename quality r =
        save_image_locked api tag f quality r := by
    intro f hf he hpng
    subst hf
    simp [wb_camera_save_image, he, hpng]
  refine ⟨?_, hpass, ?_⟩
  · rintro (h | h | ⟨f, hf, h⟩)
    · subst h
      exact ⟨_, rfl⟩
    · subst h
      exact ⟨_, rfl⟩
    · subst hf
      by_cases he : f = ""
      · exact ⟨"Error: wb_camera_save_image() called with NULL or empty 'filename' argument.\n",
          by simp [wb_camera_save_image, he, fprintf_stderr]⟩
      · rcases h with h | h
        · exact ⟨"Error: wb_camera_save_image() called with unsupported image format (should be PNG or JPEG).\n",
            by simp [wb_camera_save_image, he, h, fprintf_stderr]⟩
        · exact ⟨"Error: wb_camera_save_image() called with invalid 'quality' argument.\n",
            by simp [wb_camera_save_image, he, h.1, h.2, fprintf_stderr]⟩
  · intro f hf he hpng happ
    rw [hpass f hf he hpng]
    exact save_image_locked_calls api tag f quality r happ

/-- C20 at concrete inputs, on the sample camera holding an image: `image.jpg` with
quality 0 is rejected with the list of calls still empty, while `image.png` with
quality 0 passes the validation and the list of calls then shows the lock acquired, the
image requested, the encoder called and the lock released. -/
theorem save_image_validation_witness :
    (∃ msg, wb_camera_save_image sample_image_api 1 (some "image.jpg") 0
        (sample_robot { sample_abstract_camera sample_camera with image := some [0, 0, 0, 255] }) =
      (-1, { sample_robot
              { sample_abstract_camera sample_camera with image := some [0, 0, 0, 255] } with
              stderr := [] ++ [msg] })) ∧
    wb_camera_save_image sample_image_api 1 (some "image.png") 0
        (sample_robot { sample_abstract_camera sample_camera with image := some [0, 0, 0, 255] }) =
      (0, { sample_robot
              { sample_abstract_camera sample_camera with image := some [0, 0, 0, 255] } with
            calls := [ExternalCall.robot_mutex_lock_step,
                      ExternalCall.abstract_camera_request_image 1,
                      ExternalCall.g_image_save "image.png" 0,
                      ExternalCall.robot_mutex_unlock_step] }) :=
  ⟨(save_image_validation sample_image_api 1 (some "image.jpg") 0
      (sample_robot { sample_abstract_camera sample_camera with image := some [0, 0, 0, 255] })).1
      (Or.inr (Or.inr ⟨"image.jpg", rfl, Or.inr ⟨by decide, Or.inl (by decide)⟩⟩)),
   ((save_image_validation sample_image_api 1 (some "image.png") 0
      (sample_robot { sample_abstract_camera sample_camera with image := some [0, 0, 0, 255] })).2.1
      "image.png" rfl (by decide) (by decide)).trans (by
        simp [save_image_locked, call_robot_mutex_lock_step, call_robot_mutex_unlock_step,
          call_abstract_camera_request_image, call_g_image_save, sample_image_api,
          camera_get_abstract_camera_struct, camera_get_device, sample_robot,
          robot_mutex_lock_step, robot_mutex_unlock_step])⟩

theorem camera_get_struct_lock (r : Robot) (tag : WbDeviceTag) :
    camera_get_struct (robot_mutex_lock_step r) tag = camera_get_struct r tag := rfl

theorem camera_get_abstract_camera_struct_lock (r : Robot) (tag : WbDeviceTag) :
    camera_get_abstract_camera_struct (robot_mutex_lock_step r) tag =
      camera_get_abstract_camera_struct r tag := rfl

/-- C21: invalid handle sentinels. For every tag that resolves to no `Camera` struct:
the six double-valued getters return NaN; `wb_camera_recognition_get_sampling_period`
and `wb_camera_recognition_get_number_of_objects` return 0; `wb_camera_has_recognition`
returns false; `wb_camera_recognition_get_objects` and
`wb_camera_recognition_get_object` return the null pointer; `wb_camera_set_fov`,
`wb_camera_set_focal_distance`, `wb_camera_recognition_enable`,
`wb_camera_recognition_disable` and `wbr_camera_recognition_set_object` leave every
device as it was. Each of these calls returns. -/
theorem invalid_handle_sentinels (r : Robot) (tag : WbDeviceTag)
    (hnone : camera_get_struct r tag = none) (v : Double) (period index : Int)
    (objects : List WbCameraRecognitionObject) (object_number : Int) :
    (wb_camera_get_min_fov tag r).1 = Double.nan ∧
    (wb_camera_get_max_fov tag r).1 = Double.nan ∧
    (wb_camera_get_focal_length tag r).1 = Double.nan ∧
    (wb_camera_get_focal_distance tag r).1 = Double.nan ∧
    (wb_camera_get_min_focal_distance tag r).1 = Double.nan ∧
    (wb_camera_get_max_focal_distance tag r).1 = Double.nan ∧
    (wb_camera_recognition_get_sampling_period tag r).1 = 0 ∧
    (wb_camera_recognition_get_number_of_objects tag r).1 = 0 ∧
    (wb_camera_has_recognition tag r).1 = false ∧
    (wb_camera_recognition_get_objects tag r).1 = ObjectPtr.null ∧
    (wb_camera_recognition_get_object tag index r).1 = ObjectPtr.null ∧
    (wb_camera_set_fov tag v r).devices = r.devices ∧
    (wb_camera_set_focal_distance tag v r).devices = r.devices ∧
    (wb_camera_recognition_enable tag period r).devices = r.devices ∧
    (wb_camera_recognition_disable tag r).devices = r.devices ∧
    (∃ r1, wbr_camera_recognition_set_object tag objects object_number r = some r1 ∧
      r1.devices = r.devices) := by
  refine ⟨?_, ?_, ?_, ?_, ?_, ?_, ?_, ?_, ?_, ?_, ?_, ?_, ?_, ?_, ?_, ?_⟩
  · simp only [wb_camera_get_min_fov, camera_get_struct_lock, hnone]
  · simp only [wb_camera_get_max_fov, camera_get_struct_lock, hnone]
  · simp only [wb_camera_get_focal_length, camera_get_struct_lock, hnone]
  · simp only [wb_camera_get_focal_distance, camera_get_struct_lock, hnone]
  · simp only [wb_camera_get_min_focal_distance, camera_get_struct_lock, hnone]
  · simp only [wb_camera_get_max_focal_distance, camera_get_struct_lock, hnone]
  · simp only [wb_camera_recognition_get_sampling_period, camera_get_struct_lock, hnone]
  · simp only [wb_camera_recognition_get_number_of_objects, camera_get_struct_lock, hnone]
  · simp only [wb_camera_has_recognition, camera_get_struct_lock, hnone]
  · simp only [wb_camera_recognition_get_objects, camera_get_struct_lock, hnone]
  · simp only [wb_camera_recognition_get_object, hnone]
  · simp only [wb_camera_set_fov, camera_get_struct_lock, hnone]
    cases camera_get_abstract_camera_struct (robot_mutex_lock_step r) tag <;> rfl
  · simp only [wb_camera_set_focal_distance, camera_get_struct_lock, hnone]
    cases camera_get_abstract_camera_struct (robot_mutex_lock_step r) tag <;> rfl
  · by_cases hp : period < 0
    · simp only [wb_camera_recognition_enable, hp, if_true]
      rfl
    · simp only [wb_camera_recognition_enable, hp, if_false, camera_get_struct_lock, hnone]
      rfl
  · simp only [wb_camera_recognition_disable, camera_get_struct_lock, hnone]
    rfl
  · exact ⟨fprintf_stderr r "Error: wbr_camera_recognition_set_object(): invalid device tag.\n",
      by simp only [wbr_camera_recognition_set_object, hnone], rfl⟩

/-- C21 at a concrete input: tag 2 resolves to no device in the sample state; the
minimum field of view read under it is NaN and an injected list leaves the devices as
they were. -/
theorem invalid_handle_sentinels_witness :
    camera_get_struct (sample_robot (sample_abstract_camera sample_camera)) 2 = none ∧
    (wb_camera_get_min_fov 2 (sample_robot (sample_abstract_camera sample_camera))).1 =
      Double.nan ∧
    (wb_camera_recognition_get_object 2 5
      (sample_robot (sample_abstract_camera sample_camera))).1 = ObjectPtr.null ∧
    (wb_camera_set_fov 2 (Double.finite (1 / 2))
      (sample_robot (sample_abstract_camera sample_camera))).devices =
      (sample_robot (sample_abstract_camera sample_camera)).devices :=
  have h := invalid_handle_sentinels (sample_robot (sample_abstract_camera sample_camera)) 2
    rfl (Double.finite (1 / 2)) 32 5 sample_objects 2
  ⟨rfl, h.1, h.2.2.2.2.2.2.2.2.2.2.1, h.2.2.2.2.2.2.2.2.2.2.2.1⟩

/-- A flush on a configured camera, for a generic base writer that leaves the field of
view and the `Camera` struct alone: the device it leaves and the fields it appends. -/
theorem wb_camera_write_request_of_keeps (m : Messages)
    (base : WbDevice → WbRequest → WbDevice × WbRequest)
    (hbase : base_keeps_camera_state base) (d : WbDevice) (r : WbRequest)
    (ac : AbstractCamera) (c : Camera) (hac : d.pdata = some ac) (hc : ac.pdata = some c) :
    ∃ ac1, (base d r).1.pdata = some ac1 ∧
      wb_camera_write_request m base d r =
        some ({ pdata := some { ac1 with pdata := some { c with
                  set_fov := false, set_focal_distance := false,
                  enable_recognition := false } } },
              (base d r).2 ++
                (if c.set_fov then [Field.uchar m.C_CAMERA_SET_FOV, Field.double ac.fov]
                  else []) ++
                (if c.set_focal_distance then
                  [Field.uchar m.C_CAMERA_SET_FOCAL, Field.double c.focal_distance] else []) ++
                (if c.enable_recognition then
                  [Field.uchar m.C_CAMERA_SET_RECOGNITION_SAMPLING_PERIOD,
                   Field.uint16 (to_uint16 c.recognition_sampling_period)] else [])) := by
  obtain ⟨ac1, h1, hfov, hp⟩ := hbase d r ac hac
  refine ⟨ac1, h1, ?_⟩
  rw [wb_camera_write_request_eq m base d r ac1 c h1 (hp.trans hc), hfov]

theorem to_uint16_cast (p : Int) : (to_uint16 p : Int) = p % 65536 := by
  unfold to_uint16
  exact Int.toNat_of_nonneg (Int.emod_nonneg p (by decide))

/-- C22: recognition period width. On a valid camera with the recognition capability
and for every period `p >= 0`, after `wb_camera_recognition_enable(p)`
`wb_camera_recognition_get_sampling_period` returns `p`, and the next
`wb_camera_write_request` (with a generic base writer that leaves the field of view and
the `Camera` struct alone) returns and ends its output with the
`C_CAMERA_SET_RECOGNITION_SAMPLING_PERIOD` record whose unsigned 16-bit payload is
`p mod 2^16`; that payload equals `p` exactly when `p <= 65535`. -/
theorem recognition_period_width (m : Messages)
    (base : WbDevice → WbRequest → WbDevice × WbRequest)
    (hbase : base_keeps_camera_state base) (r : Robot) (tag : WbDeviceTag) (d : WbDevice)
    (ac : AbstractCamera) (c : Camera) (hv : valid_camera r tag d ac c)
    (hrec : c.has_recognition = true) (p : Int) (hp : 0 ≤ p) (req : WbRequest) :
    (wb_camera_recognition_get_sampling_period tag
      (wb_camera_recognition_enable tag p r)).1 = p ∧
    (∃ d1 d2, (wb_camera_recognition_enable tag p r).devices tag = some d1 ∧
      wb_camera_write_request m base d1 req =
        some (d2, (base d1 req).2 ++
          (if c.set_fov then [Field.uchar m.C_CAMERA_SET_FOV, Field.double ac.fov] else []) ++
          (if c.set_focal_distance then
            [Field.uchar m.C_CAMERA_SET_FOCAL, Field.double c.focal_distance] else []) ++
          [Field.uchar m.C_CAMERA_SET_RECOGNITION_SAMPLING_PERIOD,
           Field.uint16 (to_uint16 p)])) ∧
    (to_uint16 p : Int) = p % 65536 ∧
    ((to_uint16 p : Int) = p ↔ p ≤ 65535) := by
  have he := wb_camera_recognition_enable_of_supported hv hrec p hp
  refine ⟨?_, ?_, to_uint16_cast p, ?_⟩
  · rw [he]
    simp [wb_camera_recognition_get_sampling_period, camera_get_struct,
      camera_get_abstract_camera_struct, camera_get_device, robot_mutex_lock_step, with_camera,
      hrec]
  · obtain ⟨ac1, _, hw⟩ := wb_camera_write_request_of_keeps m base hbase
      { pdata := some { ac with pdata := some { c with
          enable_recognition := true, recognition_sampling_period := p } } } req
      { ac with pdata := some { c with
          enable_recognition := true, recognition_sampling_period := p } }
      { c with enable_recognition := true, recognition_sampling_period := p } rfl rfl
    refine ⟨{ pdata := some { ac with pdata := some { c with
          enable_recognition := true, recognition_sampling_period := p } } },
      { pdata := some { ac1 with pdata := some { c with
          enable_recognition := false, recognition_sampling_period := p,
          set_fov := false, set_focal_distance := false } } }, ?_, ?_⟩
    · rw [he]
      simp [with_camera]
    · rw [hw]
      simp
  · rw [to_uint16_cast]
    omega

/-- C22 at a concrete input: period 65568 on the sample camera; the stored period is
65568 and the flush sends 32. -/
theorem recognition_period_width_witness :
    base_keeps_camera_state idle_base ∧
    valid_camera (sample_robot (sample_abstract_camera sample_camera)) 1
      { pdata := some (sample_abstract_camera sample_camera) }
      (sample_abstract_camera sample_camera) sample_camera ∧
    sample_camera.has_recognition = true ∧ (0 : Int) ≤ 65568 ∧
    (wb_camera_recognition_get_sampling_period 1
      (wb_camera_recognition_enable 1 65568
        (sample_robot (sample_abstract_camera sample_camera)))).1 = 65568 ∧
    (to_uint16 65568 : Int) = 65568 % 65536 :=
  have hb : base_keeps_camera_state idle_base := fun _ _ ac h => ⟨ac, h, rfl, rfl⟩
  have h := recognition_period_width sample_messages idle_base hb
    (sample_robot (sample_abstract_camera sample_camera)) 1 _ _ _ ⟨rfl, rfl, rfl⟩ rfl 65568
    (by decide) []
  ⟨hb, ⟨rfl, rfl, rfl⟩, rfl, by decide, h.1, h.2.2.1⟩

theorem last_accepted_cons_of_accepted (accepted : Double → Bool) (v : Double)
    (vs : List Double) (h : accepted v = true) :
    last_accepted accepted (v :: vs) = some ((last_accepted accepted vs).getD v) := by
  simp [last_accepted, List.filter_cons, h, List.getLast?_cons]

theorem last_accepted_cons_of_rejected (accepted : Double → Bool) (v : Double)
    (vs : List Double) (h : accepted v = false) :
    last_accepted accepted (v :: vs) = last_accepted accepted vs := by
  simp [last_accepted, List.filter_cons, h]

/-- The device after a sequence of `wb_camera_set_fov` calls on a valid camera: when a
call was accepted, the field of view is the value of the last accepted call and the
fov-dirty marker is set; when none was, the device is as before. -/
theorem set_fov_calls_device (tag : WbDeviceTag) (vs : List Double) :
    ∀ (r : Robot) (d : WbDevice) (ac : AbstractCamera) (c : Camera),
      valid_camera r tag d ac c →
      (set_fov_calls tag vs r).devices tag =
        some (match last_accepted (fov_accepted ac c) vs with
          | some v => { pdata := some { ac with fov := v, pdata := some { c with set_fov := true } } }
          | none => d) := by
  induction vs with
  | nil =>
    intro r d ac c hv
    simpa [set_fov_calls, last_accepted] using hv.1
  | cons v vs ih =>
    intro r d ac c hv
    cases hacc : fov_accepted ac c v with
    | false =>
      obtain ⟨msg, hmsg⟩ := wb_camera_set_fov_of_rejected hv v hacc
      have hv2 : valid_camera { r with stderr := r.stderr ++ [msg] } tag d ac c := hv
      rw [set_fov_calls, hmsg, ih _ d ac c hv2, last_accepted_cons_of_rejected _ _ _ hacc]
    | true =>
      have hv2 := valid_camera_with_camera r tag { ac with fov := v } { c with set_fov := true }
      have hsame : fov_accepted { ac with fov := v, pdata := some { c with set_fov := true } }
          { c with set_fov := true } = fov_accepted ac c := rfl
      rw [set_fov_calls, wb_camera_set_fov_of_accepted hv v hacc, ih _ _ _ _ hv2, hsame,
        last_accepted_cons_of_accepted _ _ _ hacc]
      cases last_accepted (fov_accepted ac c) vs <;> rfl

/-- The device after a sequence of `wb_camera_set_focal_distance` calls on a valid
camera: when a call was accepted, the focal distance is the value of the last accepted
call and the focal-dirty marker is set; when none was, the device is as before. -/
theorem set_focal_distance_calls_device (tag : WbDeviceTag) (vs : List Double) :
    ∀ (r : Robot) (d : WbDevice) (ac : AbstractCamera) (c : Camera),
      valid_camera r tag d ac c →
      (set_focal_distance_calls tag vs r).devices tag =
        some (match last_accepted (focal_accepted ac c) vs with
          | some v => { pdata := some { ac with pdata := some { c with
              focal_distance := v, set_focal_distance := true } } }
          | none => d) := by
  induction vs with
  | nil =>
    intro r d ac c hv
    simpa [set_focal_distance_calls, last_accepted] using hv.1
  | cons v vs ih =>
    intro r d ac c hv
    cases hacc : focal_accepted ac c v with
    | false =>
      obtain ⟨msg, hmsg⟩ := wb_camera_set_focal_distance_of_rejected hv v hacc
      have hv2 : valid_camera { r with stderr := r.stderr ++ [msg] } tag d ac c := hv
      rw [set_focal_distance_calls, hmsg, ih _ d ac c hv2,
        last_accepted_cons_of_rejected _ _ _ hacc]
    | true =>
      have hv2 := valid_camera_with_camera r tag ac
        { c with focal_distance := v, set_focal_distance := true }
      have hsame : focal_accepted
          { ac with pdata := some { c with focal_distance := v, set_focal_distance := true } }
          { c with focal_distance := v, set_focal_distance := true } =
          focal_accepted ac c := rfl
      rw [set_focal_distance_calls, wb_camera_set_focal_distance_of_accepted hv v hacc,
        ih _ _ _ _ hv2, hsame, last_accepted_cons_of_accepted _ _ _ hacc]
      cases last_accepted (focal_accepted ac c) vs <;> rfl

/-- C23: staged changes coalesce. On a valid camera, after any sequence of
`wb_camera_set_fov` calls of which at least one is accepted, `v` being the value of the
last accepted one, the next `wb_camera_write_request` (with a generic base writer that
leaves the field of view and the `Camera` struct alone) returns and appends, after the
fields of the base, exactly one `C_CAMERA_SET_FOV` record, with payload `v`, followed
only by the focal and recognition records that were pending before the sequence. The
same holds for `wb_camera_set_focal_distance` and the `C_CAMERA_SET_FOCAL` record, which
is preceded only by the fov record that was pending before the sequence. -/
theorem staged_changes_coalesce (m : Messages)
    (base : WbDevice → WbRequest → WbDevice × WbRequest)
    (hbase : base_keeps_camera_state base) (r : Robot) (tag : WbDeviceTag) (d : WbDevice)
    (ac : AbstractCamera) (c : Camera) (hv : valid_camera r tag d ac c)
    (vs : List Double) (v : Double) (req : WbRequest) :
    (last_accepted (fov_accepted ac c) vs = some v →
      ∃ d1 d2, (set_fov_calls tag vs r).devices tag = some d1 ∧
        wb_camera_write_request m base d1 req =
          some (d2, (base d1 req).2 ++
            [Field.uchar m.C_CAMERA_SET_FOV, Field.double v] ++
            (if c.set_focal_distance then
              [Field.uchar m.C_CAMERA_SET_FOCAL, Field.double c.focal_distance] else []) ++
            (if c.enable_recognition then
              [Field.uchar m.C_CAMERA_SET_RECOGNITION_SAMPLING_PERIOD,
               Field.uint16 (to_uint16 c.recognition_sampling_period)] else []))) ∧
    (last_accepted (focal_accepted ac c) vs = some v →
      ∃ d1 d2, (set_focal_distance_calls tag vs r).devices tag = some d1 ∧
        wb_camera_write_request m base d1 req =
          some (d2, (base d1 req).2 ++
            (if c.set_fov then [Field.uchar m.C_CAMERA_SET_FOV, Field.double ac.fov]
              else []) ++
            [Field.uchar m.C_CAMERA_SET_FOCAL, Field.double v] ++
            (if c.enable_recognition then
              [Field.uchar m.C_CAMERA_SET_RECOGNITION_SAMPLING_PERIOD,
               Field.uint16 (to_uint16 c.recognition_sampling_period)] else []))) := by
  constructor
  · intro hlast
    have hdev := set_fov_calls_device tag vs r d ac c hv
    rw [hlast] at hdev
    obtain ⟨ac1, _, hw⟩ := wb_camera_write_request_of_keeps m base hbase
      { pdata := some { ac with fov := v, pdata := some { c with set_fov := true } } } req
      { ac with fov := v, pdata := some { c with set_fov := true } }
      { c with set_fov := true } rfl rfl
    refine ⟨{ pdata := some { ac with fov := v, pdata := some { c with set_fov := true } } },
      { pdata := some { ac1 with pdata := some { c with
          set_fov := false, set_focal_distance := false, enable_recognition := false } } },
      hdev, ?_⟩
    rw [hw]
    simp
  · intro hlast
    have hdev := set_focal_distance_calls_device tag vs r d ac c hv
    rw [hlast] at hdev
    obtain ⟨ac1, _, hw⟩ := wb_camera_write_request_of_keeps m base hbase
      { pdata := some { ac with pdata := some { c with
          focal_distance := v, set_focal_distance := true } } } req
      { ac with pdata := some { c with focal_distance := v, set_focal_distance := true } }
      { c with focal_distance := v, set_focal_distance := true } rfl rfl
    refine ⟨{ pdata := some { ac with pdata := some { c with
          focal_distance := v, set_focal_distance := true } } },
      { pdata := some { ac1 with pdata := some { c with
          focal_distance := v, set_fov := false, set_focal_distance := false,
          enable_recognition := false } } },
      hdev, ?_⟩
    rw [hw]
    simp

/-- C23 at a concrete input: on the sample camera (zoom range `[0.2, 1.0]`, planar) the
calls `set_fov(0.5)`, `set_fov(1.5)`, `set_fov(0.75)`, `set_fov(2)` are accepted,
rejected, accepted, rejected; the flush that follows, with an idle base, sends the one
record `C_CAMERA_SET_FOV` with payload 0.75. -/
theorem staged_changes_coalesce_witness :
    base_keeps_camera_state idle_base ∧
    valid_camera (sample_robot (sample_abstract_camera sample_camera)) 1
      { pdata := some (sample_abstract_camera sample_camera) }
      (sample_abstract_camera sample_camera) sample_camera ∧
    last_accepted (fov_accepted (sample_abstract_camera sample_camera) sample_camera)
      [Double.finite (1 / 2), Double.finite (3 / 2), Double.finite (3 / 4), Double.finite 2] =
      some (Double.finite (3 / 4)) ∧
    ∃ d1 d2, (set_fov_calls 1
        [Double.finite (1 / 2), Double.finite (3 / 2), Double.finite (3 / 4), Double.finite 2]
        (sample_robot (sample_abstract_camera sample_camera))).devices 1 = some d1 ∧
      wb_camera_write_request sample_messages idle_base d1 [] =
        some (d2, [Field.uchar 4, Field.double (Double.finite (3 / 4))]) := by
  have hb : base_keeps_camera_state idle_base := fun _ _ ac h => ⟨ac, h, rfl, rfl⟩
  have hlast : last_accepted
      (fov_accepted (sample_abstract_camera sample_camera) sample_camera)
      [Double.finite (1 / 2), Double.finite (3 / 2), Double.finite (3 / 4), Double.finite 2] =
      some (Double.finite (3 / 4)) := by
    simp [last_accepted, List.filter_cons, fov_accepted, fov_bound, sample_abstract_camera,
      sample_camera, Double.lt, Double.gt, zero, M_PI]
    norm_num
  obtain ⟨d1, d2, h1, h2⟩ := (staged_changes_coalesce sample_messages idle_base hb
    (sample_robot (sample_abstract_camera sample_camera)) 1 _ _ _ ⟨rfl, rfl, rfl⟩
    [Double.finite (1 / 2), Double.finite (3 / 2), Double.finite (3 / 4), Double.finite 2]
    (Double.finite (3 / 4)) []).1 hlast
  refine ⟨hb, ⟨rfl, rfl, rfl⟩, hlast, d1, d2, h1, ?_⟩
  rw [h2]
  simp [idle_base, sample_camera, sample_messages]

/-- C14 fails on the code when the replacement is injected: on a camera with
recognition supported and enabled, after `wbr_camera_recognition_set_object` with the
two objects of the scenario of the spec (the first with the colours red, green, blue,
the second with none), `wb_camera_recognition_get_object(0)` points to an object whose
three colours are all red, which is not the first object of the list;
`wb_camera_recognition_get_object(1)` points to the second object of the list. -/
theorem get_object_after_injected_replace :
    wbr_camera_recognition_set_object 1 sample_objects 2
        (sample_robot (sample_abstract_camera { sample_camera with
          recognition_sampling_period := 32 })) =
      some (with_camera
        (sample_robot (sample_abstract_camera { sample_camera with
          recognition_sampling_period := 32 })) 1
        (sample_abstract_camera { sample_camera with recognition_sampling_period := 32 })
        { sample_camera with
          recognition_sampling_period := 32, recognized_object_number := 2,
          recognized_objects := some (red_box :: sample_objects.drop 1) }) ∧
    (wb_camera_recognition_get_object 1 0 (with_camera
        (sample_robot (sample_abstract_camera { sample_camera with
          recognition_sampling_period := 32 })) 1
        (sample_abstract_camera { sample_camera with recognition_sampling_period := 32 })
        { sample_camera with
          recognition_sampling_period := 32, recognized_object_number := 2,
          recognized_objects := some (red_box :: sample_objects.drop 1) })).1.deref =
      some red_box ∧
    sample_objects.get? 0 ≠ some red_box ∧
    (wb_camera_recognition_get_object 1 1 (with_camera
        (sample_robot (sample_abstract_camera { sample_camera with
          recognition_sampling_period := 32 })) 1
        (sample_abstract_camera { sample_camera with recognition_sampling_period := 32 })
        { sample_camera with
          recognition_sampling_period := 32, recognized_object_number := 2,
          recognized_objects := some (red_box :: sample_objects.drop 1) })).1.deref =
      sample_objects.get? 1 := by
  have hm1 : copy_model "box" = some "box" := by decide
  have hm2 : copy_model "ball" = some "ball" := by decide
  have hf3 : colors_fit 3 = true := by decide
  have hf0 : colors_fit 0 = true := by decide
  refine ⟨?_, ?_, ?_, ?_⟩
  · simp [wbr_camera_recognition_set_object, camera_get_struct,
      camera_get_abstract_camera_struct, camera_get_device, sample_robot,
      sample_abstract_camera, camera_set_object, camera_clear_recognized_objects_list,
      set_object_loop, set_object_entry, copy_colors, sample_objects, red_box, hm1, hm2,
      hf3, hf0, malloc_objects, store_camera, store_abstract_camera, with_camera]
  · simp [wb_camera_recognition_get_object, wb_camera_recognition_get_objects,
      camera_get_struct, camera_get_abstract_camera_struct, camera_get_device,
      robot_mutex_lock_step, with_camera, sample_camera, ObjectPtr.add, ObjectPtr.deref]
  · simp [sample_objects, red_box]
  · simp [wb_camera_recognition_get_object, wb_camera_recognition_get_objects,
      camera_get_struct, camera_get_abstract_camera_struct, camera_get_device,
      robot_mutex_lock_step, with_camera, sample_camera, ObjectPtr.add, ObjectPtr.deref,
      sample_objects]

end WbCamera
